import Mathlib

/-!
Verification of `toolkit/tools/scheduler/schedulerutils/printresults.go`
(CBL-Mariner build scheduler: outcome classification and reporting layer).

The Go file is shallowly embedded below.  Nodes, the dependency graph and
the shared build state are modelled as plain values; the graph and
build-state accessors (`AllBuildNodes`, `AllRunNodes`, `From`,
`IsNodeCached`, `IsNodeDelta`, `IsNodeAvailable`, `BuildFailures`,
`ConflictingRPMs`, `ConflictingSRPMs`) live outside the verified file and
are modelled from the spec as fields of the corresponding structures.
Go's `map[string]T` is modelled as an association list with one binding
per key; insertion overwrites the value of an existing key in place and
appends fresh keys at the end, so iteration order is first-insertion
order (a concrete instance of Go's unspecified map iteration order).
Logging is modelled as a returned list of (severity, message) pairs, and
the CSV file write as a returned table plus injected results for the two
fallible file operations.
-/

namespace PrintResults

/-- Node kind: build-type vs run(dependency)-type node.  Modelled from the
spec ("a node kind (build-type vs. run/dependency-type)"); the graph
accessor that owns it is outside the verified file. -/
inductive NodeType where
  | build
  | run
  deriving DecidableEq

/-- Resolution state of a node.  Only `unresolved` is distinguished by the
code under verification (`pkggraph.StateUnresolved`); every other state is
collapsed into `resolved`. -/
inductive NodeState where
  | unresolved
  | resolved
  deriving DecidableEq

/-- A graph node (`pkggraph.PkgNode`): identity, source-archive path,
versioned-package display string (`VersionedPkg.String()`), kind and
resolution state.  Modelled from the spec's data model for `BuildNode`. -/
structure PkgNode where
  id : Nat
  srpmPath : String
  versionedPkg : String
  typ : NodeType
  state : NodeState
  deriving DecidableEq

/-- A build failure record (`buildState.BuildFailures()` element):
node reference, error value (rendered), path to a detailed log. -/
structure Failure where
  node : PkgNode
  errMsg : String
  logFile : String
  deriving DecidableEq

/-- The shared build state, read under the graph read lock.  Modelled from
the spec: per-node predicates cached/delta/available, the ordered failure
list, and the pre-computed toolchain conflict lists. -/
structure GraphBuildState where
  isNodeCached : PkgNode → Bool
  isNodeDelta : PkgNode → Bool
  isNodeAvailable : PkgNode → Bool
  buildFailures : List Failure
  conflictingRPMs : List String
  conflictingSRPMs : List String

/-- The dependency graph, via the accessor surface the code uses:
`AllBuildNodes()`, `AllRunNodes()`, and `From(id)` (direct neighbor
enumeration in the graph's native edge order).  Modelled from the spec's
Graph Accessor interface. -/
structure PkgGraph where
  allBuildNodes : List PkgNode
  allRunNodes : List PkgNode
  fromNodes : Nat → List PkgNode

/-- Go's `filepath.Base` on a slash-separated path: empty input gives ".",
trailing separators are stripped, the last path element is returned, and
an all-separator path gives "/". -/
def filepathBase (path : String) : String :=
  if path = "" then "."
  else
    let stripped := (path.toList.reverse.dropWhile (fun c => c = '/')).reverse
    let lastComp := (stripped.reverse.takeWhile (fun c => c ≠ '/')).reverse
    if lastComp = [] then "/" else String.mk lastComp

/-- `SRPMFileName` of a node.  Modelled from the spec: the base file name
of the node's source archive (the method itself is outside this file). -/
def PkgNode.srpmFileName (n : PkgNode) : String :=
  filepathBase n.srpmPath

/-- Association-list model of Go's `map[string]α`: at most one binding per
key.  `insertMap` overwrites an existing binding in place and appends a
fresh key at the end. -/
def insertMap {α : Type} (m : List (String × α)) (k : String) (v : α) :
    List (String × α) :=
  if m.any (fun p => p.1 = k) then
    m.map (fun p => if p.1 = k then (k, v) else p)
  else
    m ++ [(k, v)]

/-- Key lookup (`v, found := m[k]`). -/
def lookupMap {α : Type} (m : List (String × α)) (k : String) : Option α :=
  match m.find? (fun p => p.1 = k) with
  | some p => some p.2
  | none => none

/-- The key list of a map, in iteration order. -/
def keysOf {α : Type} (m : List (String × α)) : List String :=
  m.map Prod.fst

/-- The map `failedSRPMs` built from the failure list (printresults.go
lines 44-48): later failures with the same `SrpmPath` overwrite earlier
ones. -/
def buildFailedMap (st : GraphBuildState) : List (String × PkgNode) :=
  st.buildFailures.foldl (fun m f => insertMap m f.node.srpmPath f.node) []

/-- The `map[string]bool` variant used by `PrintBuildSummary`
(printresults.go lines 159-163). -/
def buildFailedSet (st : GraphBuildState) : List (String × Bool) :=
  st.buildFailures.foldl (fun m f => insertMap m f.node.srpmPath true) []

/-- The four category maps filled by the classification loop.  Field names
follow the Go locals (including the capitalization slip in
`prebuiltDeltaSRPMS`). -/
structure Categories (α : Type) where
  prebuiltSRPMs : List (String × α)
  prebuiltDeltaSRPMS : List (String × α)
  builtSRPMs : List (String × α)
  unbuiltSRPMs : List (String × α)

/-- The empty accumulator for the classification loop. -/
def Categories.empty {α : Type} : Categories α :=
  ⟨[], [], [], []⟩

/-- Body of the classification loop over `AllBuildNodes()` (printresults.go
lines 57-77 and the identical lines 179-196): cached nodes go to the
prebuilt-delta or prebuilt map, otherwise available nodes to the built
map, otherwise nodes absent from `failedSRPMs` to the unbuilt map.
`mkVal` is the stored value (`node` itself in `RecordBuildSummary`,
`true` in `PrintBuildSummary`). -/
def processBuildNode {α β : Type} (mkVal : PkgNode → α) (st : GraphBuildState)
    (failedSRPMs : List (String × β)) (acc : Categories α) (node : PkgNode) :
    Categories α :=
  if st.isNodeCached node then
    if st.isNodeDelta node then
      { acc with prebuiltDeltaSRPMS := insertMap acc.prebuiltDeltaSRPMS node.srpmPath (mkVal node) }
    else
      { acc with prebuiltSRPMs := insertMap acc.prebuiltSRPMs node.srpmPath (mkVal node) }
  else if st.isNodeAvailable node then
    { acc with builtSRPMs := insertMap acc.builtSRPMs node.srpmPath (mkVal node) }
  else if (lookupMap failedSRPMs node.srpmPath).isSome then
    acc
  else
    { acc with unbuiltSRPMs := insertMap acc.unbuiltSRPMs node.srpmPath (mkVal node) }

/-- The whole classification loop. -/
def classifyBuildNodes {α β : Type} (mkVal : PkgNode → α) (g : PkgGraph)
    (st : GraphBuildState) (failedSRPMs : List (String × β)) : Categories α :=
  g.allBuildNodes.foldl (processBuildNode mkVal st failedSRPMs) Categories.empty

/-- The category maps of `RecordBuildSummary` (node-valued). -/
def categoryMaps (g : PkgGraph) (st : GraphBuildState) : Categories PkgNode :=
  classifyBuildNodes (fun n => n) g st (buildFailedMap st)

/-- The category sets of `PrintBuildSummary` (bool-valued). -/
def printCategories (g : PkgGraph) (st : GraphBuildState) : Categories Bool :=
  classifyBuildNodes (fun _ => true) g st (buildFailedSet st)

/-- The `unresolvedDependencies` set computed identically by both
`RecordBuildSummary` (lines 79-83, computed and left unused) and
`PrintBuildSummary` (lines 198-202): the versioned-package display strings
of run-type nodes whose state is unresolved, deduplicated. -/
def unresolvedDependencies (g : PkgGraph) : List (String × Bool) :=
  g.allRunNodes.foldl
    (fun m node =>
      if node.state = NodeState.unresolved then insertMap m node.versionedPkg true
      else m)
    []

/-- The blocker string of a failed or unbuilt node (printresults.go lines
104-114 and the identical lines 124-134): walk `From(node.ID())` in edge
order and append "<base>-FAIL " for predecessors keyed in `failedSRPMs`
and "<base>-UNBUILT " for predecessors keyed in `unbuiltSRPMs`. -/
def blockingNodesStr (g : PkgGraph) (failedSRPMs : List (String × PkgNode))
    (unbuiltSRPMs : List (String × PkgNode)) (node : PkgNode) : String :=
  (g.fromNodes node.id).foldl
    (fun s fromNode =>
      let s1 :=
        if (lookupMap failedSRPMs fromNode.srpmPath).isSome then
          s ++ filepathBase fromNode.srpmPath ++ "-FAIL "
        else s
      if (lookupMap unbuiltSRPMs fromNode.srpmPath).isSome then
        s1 ++ filepathBase fromNode.srpmPath ++ "-UNBUILT "
      else s1)
    ""

/-- The CSV table (`csvBlob`) assembled by `RecordBuildSummary` (lines
85-138): header, then Built, PreBuilt, PreBuiltDelta rows (two fields),
then Failed and Unbuilt rows (three fields, the third the blocker
string). -/
def recordBuildSummaryBlob (g : PkgGraph) (st : GraphBuildState) :
    List (List String) :=
  let failedSRPMs := buildFailedMap st
  let cats := classifyBuildNodes (fun n => n) g st failedSRPMs
  let _unresolved := unresolvedDependencies g
  [["Package", "State", "Blocker"]]
    ++ cats.builtSRPMs.map (fun p => [filepathBase p.2.srpmPath, "Built"])
    ++ cats.prebuiltSRPMs.map (fun p => [filepathBase p.2.srpmPath, "PreBuilt"])
    ++ cats.prebuiltDeltaSRPMS.map (fun p => [filepathBase p.2.srpmPath, "PreBuiltDelta"])
    ++ failedSRPMs.map
        (fun p => [filepathBase p.2.srpmPath, "Failed",
                   blockingNodesStr g failedSRPMs cats.unbuiltSRPMs p.2])
    ++ cats.unbuiltSRPMs.map
        (fun p => [filepathBase p.2.srpmPath, "Unbuilt",
                   blockingNodesStr g failedSRPMs cats.unbuiltSRPMs p.2])

/-- Log severities of the injected logging sink. -/
inductive LogLevel where
  | debug
  | info
  | warn
  | error
  deriving DecidableEq

/-- The severity chosen for the conflict sections (printresults.go lines
173-176): Info when the allow-toolchain-rebuilds flag is set or both
conflict lists are empty, Error otherwise. -/
def conflictsLogLevel (st : GraphBuildState) (allowToolchainRebuilds : Bool) :
    LogLevel :=
  if allowToolchainRebuilds
      || (st.conflictingRPMs.length = 0 && st.conflictingSRPMs.length = 0) then
    LogLevel.info
  else
    LogLevel.error

/-- The console summary of `PrintBuildSummary` (lines 204-278) as the
ordered list of (severity, message) pairs handed to the logger. -/
def printBuildSummary (g : PkgGraph) (st : GraphBuildState)
    (allowToolchainRebuilds : Bool) : List (LogLevel × String) :=
  let rpmConflicts := st.conflictingRPMs
  let srpmConflicts := st.conflictingSRPMs
  let cl := conflictsLogLevel st allowToolchainRebuilds
  let cats := printCategories g st
  let unresolved := unresolvedDependencies g
  [(LogLevel.info, "---------------------------"),
   (LogLevel.info, "--------- Summary ---------"),
   (LogLevel.info, "---------------------------"),
   (LogLevel.info, "Number of built SRPMs:             " ++ toString cats.builtSRPMs.length),
   (LogLevel.info, "Number of prebuilt SRPMs:          " ++ toString cats.prebuiltSRPMs.length),
   (LogLevel.info, "Number of prebuilt delta SRPMs:    " ++ toString cats.prebuiltDeltaSRPMS.length),
   (LogLevel.info, "Number of failed SRPMs:            " ++ toString st.buildFailures.length),
   (LogLevel.info, "Number of blocked SRPMs:           " ++ toString cats.unbuiltSRPMs.length),
   (LogLevel.info, "Number of unresolved dependencies: " ++ toString unresolved.length)]
  ++ (if allowToolchainRebuilds && (rpmConflicts.length > 0 || srpmConflicts.length > 0) then
        [(LogLevel.info, "Toolchain RPMs conflicts are ignored since ALLOW_TOOLCHAIN_REBUILDS=y")]
      else [])
  ++ (if rpmConflicts.length > 0 || srpmConflicts.length > 0 then
        [(cl, "Number of toolchain RPM conflicts: " ++ toString rpmConflicts.length),
         (cl, "Number of toolchain SRPM conflicts: " ++ toString srpmConflicts.length)]
      else [])
  ++ (if cats.builtSRPMs.length ≠ 0 then
        (LogLevel.info, "Built SRPMs:")
          :: cats.builtSRPMs.map (fun p => (LogLevel.info, "--> " ++ filepathBase p.1))
      else [])
  ++ (if cats.prebuiltSRPMs.length ≠ 0 then
        (LogLevel.info, "Prebuilt SRPMs:")
          :: cats.prebuiltSRPMs.map (fun p => (LogLevel.info, "--> " ++ filepathBase p.1))
      else [])
  ++ (if cats.prebuiltDeltaSRPMS.length ≠ 0 then
        (LogLevel.info, "Skipped SRPMs (i.e., delta mode is on, packages are already available in a repo):")
          :: cats.prebuiltDeltaSRPMS.map (fun p => (LogLevel.info, "--> " ++ filepathBase p.1))
      else [])
  ++ (if st.buildFailures.length ≠ 0 then
        (LogLevel.info, "Failed SRPMs:")
          :: st.buildFailures.map
              (fun f => (LogLevel.info,
                "--> " ++ f.node.srpmFileName ++ " , error: " ++ f.errMsg
                  ++ ", for details see: " ++ f.logFile))
      else [])
  ++ (if cats.unbuiltSRPMs.length ≠ 0 then
        (LogLevel.info, "Blocked SRPMs:")
          :: cats.unbuiltSRPMs.map (fun p => (LogLevel.info, "--> " ++ filepathBase p.1))
      else [])
  ++ (if unresolved.length ≠ 0 then
        (LogLevel.info, "Unresolved dependencies:")
          :: unresolved.map (fun p => (LogLevel.info, "--> " ++ p.1))
      else [])
  ++ (if rpmConflicts.length ≠ 0 then
        (cl, "RPM conflicts with toolchain: ")
          :: rpmConflicts.map (fun c => (cl, "--> " ++ c))
      else [])
  ++ (if srpmConflicts.length ≠ 0 then
        (cl, "SRPM conflicts with toolchain: ")
          :: srpmConflicts.map (fun c => (cl, "--> " ++ c))
      else [])

/-- Character model of Go `unicode.IsSpace`, restricted to Latin-1 (its
only use here is the first-character test of `fieldNeedsQuotes`). -/
def isSpaceChar (c : Char) : Bool :=
  c = ' ' || c = '\t' || c = '\n' || c = '\x0b' || c = '\x0c' || c = '\r'
    || c = '\x85' || c = '\xa0'

/-- Go `encoding/csv` `Writer.fieldNeedsQuotes` with the default comma, on
the character list of a field: the empty field is bare; `\.`, fields
holding a comma, quote, CR or LF, and fields starting with a space
character are quoted. -/
def fieldNeedsQuotes (f : List Char) : Bool :=
  if f = [] then false
  else if f = ['\\', '.'] then true
  else if f.any (fun c => c = ',' || c = '"' || c = '\n' || c = '\r') then true
  else match f with
    | [] => false
    | c :: _ => isSpaceChar c

/-- Double every quote character: the escape Go's writer applies inside a
quoted field (with `UseCRLF = false`, CR and LF are copied through). -/
def escapeQuotes : List Char → List Char
  | [] => []
  | c :: rest =>
    if c = '"' then '"' :: '"' :: escapeQuotes rest
    else c :: escapeQuotes rest

/-- One encoded CSV field (Go `csv.Writer`, default configuration). -/
def encodeFieldChars (f : List Char) : List Char :=
  if fieldNeedsQuotes f then '"' :: (escapeQuotes f ++ ['"']) else f

/-- Comma-join of the encoded fields of one record. -/
def encodeFieldsChars : List (List Char) → List Char
  | [] => []
  | [f] => encodeFieldChars f
  | f :: rest => encodeFieldChars f ++ ',' :: encodeFieldsChars rest

/-- One encoded CSV record, terminated by LF (`UseCRLF = false`). -/
def encodeRecordChars (r : List (List Char)) : List Char :=
  encodeFieldsChars r ++ ['\n']

/-- `csv.Writer.WriteAll`: every record encoded and concatenated. -/
def writeCsv (rows : List (List String)) : String :=
  String.mk ((rows.map (fun r => r.map String.toList)).flatMap encodeRecordChars)

/-- Modelled from the spec: body of a quoted CSV field in an RFC
4180-style reader (spec-side definition for the round-trip property).
Returns the decoded content and the input remaining after the closing
quote; a doubled quote decodes to a single quote. -/
def parseQuotedBody : List Char → List Char × List Char
  | [] => ([], [])
  | c :: rest =>
    if c = '"' then
      match rest with
      | '"' :: r2 =>
        let p := parseQuotedBody r2
        ('"' :: p.1, p.2)
      | _ => ([], rest)
    else
      let p := parseQuotedBody rest
      (c :: p.1, p.2)

theorem parseQuotedBody_nil : parseQuotedBody [] = ([], []) := rfl

theorem parseQuotedBody_quote_quote (r2 : List Char) :
    parseQuotedBody ('"' :: '"' :: r2) =
      ('"' :: (parseQuotedBody r2).1, (parseQuotedBody r2).2) := by
  rw [parseQuotedBody.eq_def]
  simp

theorem parseQuotedBody_quote_stop (rest : List Char)
    (h : ∀ r2, rest ≠ '"' :: r2) :
    parseQuotedBody ('"' :: rest) = ([], rest) := by
  rw [parseQuotedBody.eq_def]
  simp only [if_pos rfl]
  cases rest with
  | nil => rfl
  | cons a t =>
    have ha : a ≠ '"' := fun hc => h t (by rw [hc])
    simp [ha]

theorem parseQuotedBody_cons (c : Char) (rest : List Char) (h : c ≠ '"') :
    parseQuotedBody (c :: rest) =
      (c :: (parseQuotedBody rest).1, (parseQuotedBody rest).2) := by
  rw [parseQuotedBody.eq_def]
  simp [h]

theorem parseQuotedBody_rest_le (l : List Char) :
    (parseQuotedBody l).2.length ≤ l.length := by
  induction l using parseQuotedBody.induct with
  | case1 => simp [parseQuotedBody_nil]
  | case2 r2 ih => rw [parseQuotedBody_quote_quote]; simpa using le_trans ih (by omega)
  | case3 rest h =>
    rw [parseQuotedBody_quote_stop rest (fun r2 hc => h r2 hc)]
    simp
  | case4 c rest h ih =>
    rw [parseQuotedBody_cons c rest h]
    simpa using le_trans ih (by omega)

/-- Modelled from the spec: one CSV field read from the start of the
input, quoted or bare; returns the field content and the rest, which
starts with the delimiter that ended the field. -/
def parseFieldStart (l : List Char) : List Char × List Char :=
  match l with
  | '"' :: r => parseQuotedBody r
  | _ => (l.takeWhile (fun c => c ≠ ',' && c ≠ '\n'),
          l.dropWhile (fun c => c ≠ ',' && c ≠ '\n'))

theorem parseFieldStart_not_quote (l : List Char) (h : ∀ r, l ≠ '"' :: r) :
    parseFieldStart l =
      (l.takeWhile (fun c => c ≠ ',' && c ≠ '\n'),
       l.dropWhile (fun c => c ≠ ',' && c ≠ '\n')) := by
  rw [parseFieldStart.eq_def]
  cases l with
  | nil => rfl
  | cons a t =>
    have ha : a ≠ '"' := fun hc => h t (by rw [hc])
    simp [ha]

theorem length_dropWhile_le (p : Char → Bool) (l : List Char) :
    (l.dropWhile p).length ≤ l.length := by
  induction l with
  | nil => simp
  | cons a t ih =>
    rw [List.dropWhile_cons]
    split
    · simpa using Nat.le_succ_of_le ih
    · simp

theorem parseFieldStart_rest_le (l : List Char) :
    (parseFieldStart l).2.length ≤ l.length := by
  cases l with
  | nil => simp [parseFieldStart]
  | cons c rest =>
    by_cases h : c = '"'
    · subst h
      rw [parseFieldStart]
      exact le_trans (parseQuotedBody_rest_le rest) (Nat.le_succ _)
    · rw [parseFieldStart_not_quote _ (fun r hc => h (by injection hc))]
      exact length_dropWhile_le _ _

/-- Modelled from the spec: the fields of one CSV record and the input
remaining after its terminating LF (records may have differing field
counts; the reader does not enforce a uniform record length). -/
def parseFields (l : List Char) : List String × List Char :=
  if h : (parseFieldStart l).2.head? = some ',' then
    let res := parseFields (parseFieldStart l).2.tail
    (String.mk (parseFieldStart l).1 :: res.1, res.2)
  else if (parseFieldStart l).2.head? = some '\n' then
    ([String.mk (parseFieldStart l).1], (parseFieldStart l).2.tail)
  else
    ([String.mk (parseFieldStart l).1], [])
termination_by l.length
decreasing_by
  have h1 := parseFieldStart_rest_le l
  have h2 : (parseFieldStart l).2 ≠ [] := by
    intro hnil
    rw [hnil] at h
    simp at h
  have h3 : 0 < (parseFieldStart l).2.length := List.length_pos.mpr h2
  have h4 := List.length_tail (parseFieldStart l).2
  omega

theorem parseFields_rest_le (l : List Char) :
    (parseFields l).2.length ≤ l.length ∧
      (l ≠ [] → (parseFields l).2.length < l.length) := by
  induction l using parseFields.induct with
  | case1 l h ih =>
    have hne : (parseFieldStart l).2 ≠ [] := by
      intro hnil; rw [hnil] at h; simp at h
    have h0 : 0 < (parseFieldStart l).2.length := List.length_pos.mpr hne
    have h1 := parseFieldStart_rest_le l
    have h4 := List.length_tail (parseFieldStart l).2
    have hl : l ≠ [] := by
      intro hnil
      subst hnil
      simp [parseFieldStart] at hne
    rw [parseFields.eq_def]
    simp only [dif_pos h]
    have := ih.1
    constructor
    · omega
    · intro _
      omega
  | case2 l h h2 =>
    have hne : (parseFieldStart l).2 ≠ [] := by
      intro hnil; rw [hnil] at h2; simp at h2
    have h0 : 0 < (parseFieldStart l).2.length := List.length_pos.mpr hne
    have h1 := parseFieldStart_rest_le l
    have h4 := List.length_tail (parseFieldStart l).2
    rw [parseFields.eq_def]
    simp only [dif_neg h, if_pos h2]
    constructor
    · omega
    · intro _
      omega
  | case3 l h h2 =>
    rw [parseFields.eq_def]
    simp only [dif_neg h, if_neg h2]
    constructor
    · simp
    · intro hl
      have : 0 < l.length := List.length_pos.mpr hl
      simpa using this

/-- Modelled from the spec: all records of a CSV input. -/
def parseRows (l : List Char) : List (List String) :=
  if h : l = [] then []
  else
    (parseFields l).1 :: parseRows (parseFields l).2
termination_by l.length
decreasing_by
  exact (parseFields_rest_le l).2 h

/-- Modelled from the spec: parse a whole CSV text. -/
def parseCsv (s : String) : List (List String) :=
  parseRows s.toList

/-- The five-way outcome taxonomy of the spec for build-type nodes. -/
inductive Outcome where
  | built
  | prebuilt
  | prebuiltDelta
  | failed
  | unbuilt
  deriving DecidableEq

/-- The per-node outcome decision, mirroring the branch structure of the
classification loop: cached wins (delta deciding between the prebuilt
variants), then available, then membership of the node's srpm path in
the failed-map key set, else unbuilt. -/
def classifyNode (st : GraphBuildState) (failedKeys : List String)
    (node : PkgNode) : Outcome :=
  if st.isNodeCached node then
    if st.isNodeDelta node then Outcome.prebuiltDelta else Outcome.prebuilt
  else if st.isNodeAvailable node then Outcome.built
  else if node.srpmPath ∈ failedKeys then Outcome.failed
  else Outcome.unbuilt

/-- Insertion of a node into the category map named by its outcome (a
failed node is inserted nowhere: it is already keyed in `failedSRPMs`). -/
def applyOutcome {α : Type} (mkVal : PkgNode → α) (acc : Categories α)
    (node : PkgNode) : Outcome → Categories α
  | Outcome.prebuiltDelta =>
    { acc with prebuiltDeltaSRPMS := insertMap acc.prebuiltDeltaSRPMS node.srpmPath (mkVal node) }
  | Outcome.prebuilt =>
    { acc with prebuiltSRPMs := insertMap acc.prebuiltSRPMs node.srpmPath (mkVal node) }
  | Outcome.built =>
    { acc with builtSRPMs := insertMap acc.builtSRPMs node.srpmPath (mkVal node) }
  | Outcome.failed => acc
  | Outcome.unbuilt =>
    { acc with unbuiltSRPMs := insertMap acc.unbuiltSRPMs node.srpmPath (mkVal node) }

/-- Spec-side description of the blocker tokens of a node: one token per
qualifying direct predecessor, in the graph's native edge-enumeration
order, "<base>-FAIL" for predecessors keyed in the failed map and
"<base>-UNBUILT" for predecessors keyed in the unbuilt map. -/
def blockerTokens (g : PkgGraph) (failedSRPMs : List (String × PkgNode))
    (unbuiltSRPMs : List (String × PkgNode)) (node : PkgNode) : List String :=
  (g.fromNodes node.id).flatMap
    (fun fromNode =>
      (if (lookupMap failedSRPMs fromNode.srpmPath).isSome then
         [filepathBase fromNode.srpmPath ++ "-FAIL"] else [])
        ++ (if (lookupMap unbuiltSRPMs fromNode.srpmPath).isSome then
              [filepathBase fromNode.srpmPath ++ "-UNBUILT"] else []))

/-- Spec-side rendering of the claim "the annotation is the space-joined
concatenation of the tokens". -/
def blockerJoined (g : PkgGraph) (failedSRPMs : List (String × PkgNode))
    (unbuiltSRPMs : List (String × PkgNode)) (node : PkgNode) : String :=
  String.intercalate " " (blockerTokens g failedSRPMs unbuiltSRPMs node)

/-- Result of one external file-system operation.  Modelled from the spec:
`os.Create` and `csv.Writer.WriteAll` live outside the verified file and
their outcomes are injected. -/
inductive FileOpResult where
  | ok
  | opErr (msg : String)
  deriving DecidableEq

/-- `RecordBuildSummary` around the file write (printresults.go lines
140-151): on a create error one warning is logged and the function
returns; on a write error one warning is logged and the function returns;
otherwise the CSV text is written.  The return type has no error channel:
the Go function has no error result and raises nothing. -/
def recordBuildSummaryRun (g : PkgGraph) (st : GraphBuildState)
    (outputPath : String) (createRes writeRes : FileOpResult) :
    List (LogLevel × String) × Option String :=
  match createRes with
  | FileOpResult.opErr e =>
    ([(LogLevel.warn, "Unable to create '" ++ outputPath ++ "' file. Error: " ++ e)], none)
  | FileOpResult.ok =>
    match writeRes with
    | FileOpResult.opErr e =>
      ([(LogLevel.warn, "Failed to write to CSV file '" ++ outputPath ++ "'. Error: " ++ e)], none)
    | FileOpResult.ok =>
      ([], some (writeCsv (recordBuildSummaryBlob g st)))

/-- Classification conditions, spec-side: a cached, non-delta node. -/
def prebuiltCond (st : GraphBuildState) (n : PkgNode) : Bool :=
  st.isNodeCached n && !st.isNodeDelta n

/-- Classification conditions, spec-side: a cached, delta node. -/
def prebuiltDeltaCond (st : GraphBuildState) (n : PkgNode) : Bool :=
  st.isNodeCached n && st.isNodeDelta n

/-- Classification conditions, spec-side: non-cached, available. -/
def builtCond (st : GraphBuildState) (n : PkgNode) : Bool :=
  !st.isNodeCached n && st.isNodeAvailable n

/-- Classification conditions, spec-side: non-cached, non-available, srpm
path not keyed in the failed map. -/
def unbuiltCond {β : Type} (st : GraphBuildState) (fm : List (String × β))
    (n : PkgNode) : Bool :=
  !st.isNodeCached n && !st.isNodeAvailable n && !(lookupMap fm n.srpmPath).isSome

/-- Classification conditions, spec-side: non-cached, non-available, srpm
path keyed in the failed map. -/
def failedCond {β : Type} (st : GraphBuildState) (fm : List (String × β))
    (n : PkgNode) : Bool :=
  !st.isNodeCached n && !st.isNodeAvailable n && (lookupMap fm n.srpmPath).isSome

section MapLemmas

variable {α β : Type}

theorem lookupMap_isSome_iff (m : List (String × α)) (k : String) :
    (lookupMap m k).isSome = true ↔ k ∈ keysOf m := by
  have hsome : (lookupMap m k).isSome = (m.find? (fun p => p.1 = k)).isSome := by
    rw [lookupMap]
    cases m.find? (fun p => p.1 = k) <;> rfl
  rw [hsome, List.find?_isSome, keysOf]
  constructor
  · rintro ⟨p, hp, hkey⟩
    exact List.mem_map.mpr ⟨p, hp, by simpa using hkey⟩
  · intro h
    obtain ⟨p, hp, hkey⟩ := List.mem_map.mp h
    exact ⟨p, hp, by simpa using hkey⟩

theorem insertMap_of_not_mem (m : List (String × α)) (k : String) (v : α)
    (h : k ∉ keysOf m) : insertMap m k v = m ++ [(k, v)] := by
  rw [insertMap, if_neg]
  intro hc
  obtain ⟨p, hp, hkey⟩ := List.any_eq_true.mp hc
  exact h (List.mem_map.mpr ⟨p, hp, by simpa using hkey⟩)

theorem keysOf_insertMap (m : List (String × α)) (k : String) (v : α) :
    keysOf (insertMap m k v) = if k ∈ keysOf m then keysOf m else keysOf m ++ [k] := by
  by_cases h : k ∈ keysOf m
  · rw [if_pos h, insertMap, if_pos]
    · rw [keysOf, keysOf, List.map_map]
      apply List.map_congr_left
      intro p _
      simp only [Function.comp_apply]
      by_cases hk : p.1 = k
      · rw [if_pos hk]; simp [hk]
      · rw [if_neg hk]
    · obtain ⟨s, hs, hkey⟩ := List.mem_map.mp (show k ∈ m.map Prod.fst from h)
      exact List.any_eq_true.mpr ⟨s, hs, by simp [hkey]⟩
  · rw [if_neg h, insertMap_of_not_mem m k v h, keysOf, keysOf, List.map_append]
    rfl

theorem mem_keysOf_insertMap (m : List (String × α)) (k s : String) (v : α) :
    s ∈ keysOf (insertMap m k v) ↔ s ∈ keysOf m ∨ s = k := by
  rw [keysOf_insertMap]
  by_cases h : k ∈ keysOf m
  · rw [if_pos h]
    constructor
    · exact fun hs => Or.inl hs
    · rintro (hs | hs)
      · exact hs
      · rw [hs]; exact h
  · rw [if_neg h]
    simp

theorem nodup_keysOf_insertMap (m : List (String × α)) (k : String) (v : α)
    (h : (keysOf m).Nodup) : (keysOf (insertMap m k v)).Nodup := by
  rw [keysOf_insertMap]
  by_cases hk : k ∈ keysOf m
  · rw [if_pos hk]; exact h
  · rw [if_neg hk]
    simpa using List.Nodup.append h (by simp) (by simpa using fun hc => hk hc)

theorem mem_insertMap_pair (m : List (String × α)) (k : String) (v : α)
    (p : String × α) (h : p ∈ insertMap m k v) : p ∈ m ∨ p = (k, v) := by
  rw [insertMap] at h
  by_cases hk : m.any (fun q => q.1 = k)
  · rw [if_pos hk] at h
    obtain ⟨q, hq, heq⟩ := List.mem_map.mp h
    by_cases hqk : q.1 = k
    · rw [if_pos hqk] at heq
      exact Or.inr heq.symm
    · rw [if_neg hqk] at heq
      exact Or.inl (heq ▸ hq)
  · rw [if_neg hk] at h
    rcases List.mem_append.mp h with h1 | h1
    · exact Or.inl h1
    · exact Or.inr (by simpa using h1)

end MapLemmas

section FoldLemmas

variable {α β : Type}

/-- Generic fold of guarded insertions, used to reason about
`buildFailedMap`, `buildFailedSet` and `unresolvedDependencies`. -/
def foldInsert (p : β → Prop) [DecidablePred p] (key : β → String)
    (val : β → α) (l : List β) (m0 : List (String × α)) : List (String × α) :=
  l.foldl (fun m b => if p b then insertMap m (key b) (val b) else m) m0

theorem mem_keysOf_foldInsert (p : β → Prop) [DecidablePred p]
    (key : β → String) (val : β → α) (l : List β) (m0 : List (String × α))
    (s : String) :
    s ∈ keysOf (foldInsert p key val l m0) ↔
      s ∈ keysOf m0 ∨ ∃ b ∈ l, p b ∧ key b = s := by
  induction l generalizing m0 with
  | nil => simp [foldInsert]
  | cons b t ih =>
    rw [foldInsert, List.foldl_cons]
    by_cases hb : p b
    · rw [if_pos hb]
      rw [show (t.foldl (fun m b => if p b then insertMap m (key b) (val b) else m)
            (insertMap m0 (key b) (val b)))
          = foldInsert p key val t (insertMap m0 (key b) (val b)) from rfl, ih]
      rw [mem_keysOf_insertMap]
      constructor
      · rintro ((h | h) | h)
        · exact Or.inl h
        · exact Or.inr ⟨b, by simp, hb, h.symm⟩
        · obtain ⟨b2, hb2, hpb2, hkey⟩ := h
          exact Or.inr ⟨b2, by simp [hb2], hpb2, hkey⟩
      · rintro (h | h)
        · exact Or.inl (Or.inl h)
        · obtain ⟨b2, hb2, hpb2, hkey⟩ := h
          rcases List.mem_cons.mp hb2 with h2 | h2
          · subst h2
            exact Or.inl (Or.inr hkey.symm)
          · exact Or.inr ⟨b2, h2, hpb2, hkey⟩
    · rw [if_neg hb]
      rw [show (t.foldl (fun m b => if p b then insertMap m (key b) (val b) else m) m0)
          = foldInsert p key val t m0 from rfl, ih]
      constructor
      · rintro (h | h)
        · exact Or.inl h
        · obtain ⟨b2, hb2, hpb2, hkey⟩ := h
          exact Or.inr ⟨b2, by simp [hb2], hpb2, hkey⟩
      · rintro (h | h)
        · exact Or.inl h
        · obtain ⟨b2, hb2, hpb2, hkey⟩ := h
          rcases List.mem_cons.mp hb2 with h2 | h2
          · subst h2
            exact absurd hpb2 hb
          · exact Or.inr ⟨b2, h2, hpb2, hkey⟩

theorem nodup_keysOf_foldInsert (p : β → Prop) [DecidablePred p]
    (key : β → String) (val : β → α) (l : List β) (m0 : List (String × α))
    (h0 : (keysOf m0).Nodup) : (keysOf (foldInsert p key val l m0)).Nodup := by
  induction l generalizing m0 with
  | nil => simpa [foldInsert] using h0
  | cons b t ih =>
    rw [foldInsert, List.foldl_cons]
    by_cases hb : p b
    · rw [if_pos hb]
      exact ih (insertMap m0 (key b) (val b)) (nodup_keysOf_insertMap _ _ _ h0)
    · rw [if_neg hb]
      exact ih m0 h0

theorem pairs_of_foldInsert (p : β → Prop) [DecidablePred p]
    (key : β → String) (val : β → α) (l : List β) (m0 : List (String × α))
    (P : String × α → Prop) (h0 : ∀ q ∈ m0, P q)
    (hb : ∀ b ∈ l, p b → P (key b, val b)) :
    ∀ q ∈ foldInsert p key val l m0, P q := by
  induction l generalizing m0 with
  | nil => simpa [foldInsert] using h0
  | cons b t ih =>
    rw [foldInsert, List.foldl_cons]
    by_cases hpb : p b
    · rw [if_pos hpb]
      refine ih (insertMap m0 (key b) (val b)) ?_ (fun b2 h2 => hb b2 (by simp [h2]))
      intro q hq
      rcases mem_insertMap_pair _ _ _ q hq with h | h
      · exact h0 q h
      · rw [h]
        exact hb b (by simp) hpb
    · rw [if_neg hpb]
      exact ih m0 h0 (fun b2 h2 => hb b2 (by simp [h2]))

theorem buildFailedMap_eq_foldInsert (st : GraphBuildState) :
    buildFailedMap st =
      foldInsert (fun _ => True) (fun f => f.node.srpmPath) (fun f => f.node)
        st.buildFailures [] := by
  rw [buildFailedMap, foldInsert]
  simp

theorem buildFailedSet_eq_foldInsert (st : GraphBuildState) :
    buildFailedSet st =
      foldInsert (fun _ => True) (fun f => f.node.srpmPath) (fun _ => true)
        st.buildFailures [] := by
  rw [buildFailedSet, foldInsert]
  simp

theorem unresolvedDependencies_eq_foldInsert (g : PkgGraph) :
    unresolvedDependencies g =
      foldInsert (fun n => n.state = NodeState.unresolved)
        (fun n => n.versionedPkg) (fun _ => true) g.allRunNodes [] := by
  rw [unresolvedDependencies, foldInsert]

theorem mem_keysOf_buildFailedMap (st : GraphBuildState) (s : String) :
    s ∈ keysOf (buildFailedMap st) ↔ ∃ f ∈ st.buildFailures, f.node.srpmPath = s := by
  rw [buildFailedMap_eq_foldInsert, mem_keysOf_foldInsert]
  simp [keysOf]

theorem nodup_keysOf_buildFailedMap (st : GraphBuildState) :
    (keysOf (buildFailedMap st)).Nodup := by
  rw [buildFailedMap_eq_foldInsert]
  exact nodup_keysOf_foldInsert _ _ _ _ _ (by simp [keysOf])

theorem buildFailedMap_pairs (st : GraphBuildState) :
    ∀ q ∈ buildFailedMap st, q.2.srpmPath = q.1 ∧ ∃ f ∈ st.buildFailures, f.node = q.2 := by
  rw [buildFailedMap_eq_foldInsert]
  exact pairs_of_foldInsert _ _ _ _ _ _ (by simp)
    (fun f hf _ => ⟨rfl, f, hf, rfl⟩)

theorem mem_keysOf_unresolvedDependencies (g : PkgGraph) (s : String) :
    s ∈ keysOf (unresolvedDependencies g) ↔
      ∃ n ∈ g.allRunNodes, n.state = NodeState.unresolved ∧ n.versionedPkg = s := by
  rw [unresolvedDependencies_eq_foldInsert, mem_keysOf_foldInsert]
  simp [keysOf]

theorem nodup_keysOf_unresolvedDependencies (g : PkgGraph) :
    (keysOf (unresolvedDependencies g)).Nodup := by
  rw [unresolvedDependencies_eq_foldInsert]
  exact nodup_keysOf_foldInsert _ _ _ _ _ (by simp [keysOf])

end FoldLemmas

section ClassifyLemmas

variable {α β : Type}

/-- Every srpm path of `nodes` is absent from all four maps of `acc`. -/
def accFresh (acc : Categories α) (nodes : List PkgNode) : Prop :=
  ∀ n ∈ nodes, n.srpmPath ∉ keysOf acc.prebuiltSRPMs
    ∧ n.srpmPath ∉ keysOf acc.prebuiltDeltaSRPMS
    ∧ n.srpmPath ∉ keysOf acc.builtSRPMs
    ∧ n.srpmPath ∉ keysOf acc.unbuiltSRPMs

theorem foldl_processBuildNode_eq (mkVal : PkgNode → α) (st : GraphBuildState)
    (fm : List (String × β)) :
    ∀ (nodes : List PkgNode) (acc : Categories α),
      (nodes.map PkgNode.srpmPath).Nodup →
      accFresh acc nodes →
      nodes.foldl (processBuildNode mkVal st fm) acc =
        ⟨acc.prebuiltSRPMs ++ (nodes.filter (prebuiltCond st)).map (fun n => (n.srpmPath, mkVal n)),
         acc.prebuiltDeltaSRPMS ++ (nodes.filter (prebuiltDeltaCond st)).map (fun n => (n.srpmPath, mkVal n)),
         acc.builtSRPMs ++ (nodes.filter (builtCond st)).map (fun n => (n.srpmPath, mkVal n)),
         acc.unbuiltSRPMs ++ (nodes.filter (unbuiltCond st fm)).map (fun n => (n.srpmPath, mkVal n))⟩ := by
  intro nodes
  induction nodes with
  | nil =>
    intro acc _ _
    simp
  | cons n t ih =>
    intro acc hnd hfresh
    have hndt : (t.map PkgNode.srpmPath).Nodup := (List.nodup_cons.mp (by simpa using hnd)).2
    have hnmem : n.srpmPath ∉ t.map PkgNode.srpmPath :=
      (List.nodup_cons.mp (by simpa using hnd)).1
    have hfn := hfresh n (by simp)
    rw [List.foldl_cons]
    cases hcached : st.isNodeCached n with
    | true =>
      cases hdelta : st.isNodeDelta n with
      | true =>
        have hstep : processBuildNode mkVal st fm acc n =
            ⟨acc.prebuiltSRPMs,
             acc.prebuiltDeltaSRPMS ++ [(n.srpmPath, mkVal n)],
             acc.builtSRPMs, acc.unbuiltSRPMs⟩ := by
          rw [processBuildNode, if_pos hcached, if_pos hdelta,
            insertMap_of_not_mem _ _ _ hfn.2.1]
        rw [hstep, ih _ hndt ?_]
        · simp only [List.filter_cons]
          have c1 : prebuiltCond st n = false := by simp [prebuiltCond, hcached, hdelta]
          have c2 : prebuiltDeltaCond st n = true := by simp [prebuiltDeltaCond, hcached, hdelta]
          have c3 : builtCond st n = false := by simp [builtCond, hcached]
          have c4 : unbuiltCond st fm n = false := by simp [unbuiltCond, hcached]
          rw [c1, c2, c3, c4]
          simp
        · intro x hx
          have hfx := hfresh x (by simp [hx])
          have hxn : x.srpmPath ≠ n.srpmPath := by
            intro hc
            exact hnmem (hc ▸ List.mem_map_of_mem PkgNode.srpmPath hx)
          refine ⟨hfx.1, ?_, hfx.2.2.1, hfx.2.2.2⟩
          simp only [keysOf, List.map_append, List.mem_append]
          rintro (hmem | hmem)
          · exact hfx.2.1 hmem
          · simp at hmem
            exact hxn hmem
      | false =>
        have hstep : processBuildNode mkVal st fm acc n =
            ⟨acc.prebuiltSRPMs ++ [(n.srpmPath, mkVal n)],
             acc.prebuiltDeltaSRPMS,
             acc.builtSRPMs, acc.unbuiltSRPMs⟩ := by
          rw [processBuildNode, if_pos hcached, if_neg (by simp [hdelta]),
            insertMap_of_not_mem _ _ _ hfn.1]
        rw [hstep, ih _ hndt ?_]
        · simp only [List.filter_cons]
          have c1 : prebuiltCond st n = true := by simp [prebuiltCond, hcached, hdelta]
          have c2 : prebuiltDeltaCond st n = false := by simp [prebuiltDeltaCond, hcached, hdelta]
          have c3 : builtCond st n = false := by simp [builtCond, hcached]
          have c4 : unbuiltCond st fm n = false := by simp [unbuiltCond, hcached]
          rw [c1, c2, c3, c4]
          simp
        · intro x hx
          have hfx := hfresh x (by simp [hx])
          have hxn : x.srpmPath ≠ n.srpmPath := by
            intro hc
            exact hnmem (hc ▸ List.mem_map_of_mem PkgNode.srpmPath hx)
          refine ⟨?_, hfx.2.1, hfx.2.2.1, hfx.2.2.2⟩
          simp only [keysOf, List.map_append, List.mem_append]
          rintro (hmem | hmem)
          · exact hfx.1 hmem
          · simp at hmem
            exact hxn hmem
    | false =>
      cases havail : st.isNodeAvailable n with
      | true =>
        have hstep : processBuildNode mkVal st fm acc n =
            ⟨acc.prebuiltSRPMs, acc.prebuiltDeltaSRPMS,
             acc.builtSRPMs ++ [(n.srpmPath, mkVal n)], acc.unbuiltSRPMs⟩ := by
          rw [processBuildNode, if_neg (by simp [hcached]), if_pos havail,
            insertMap_of_not_mem _ _ _ hfn.2.2.1]
        rw [hstep, ih _ hndt ?_]
        · simp only [List.filter_cons]
          have c1 : prebuiltCond st n = false := by simp [prebuiltCond, hcached]
          have c2 : prebuiltDeltaCond st n = false := by simp [prebuiltDeltaCond, hcached]
          have c3 : builtCond st n = true := by simp [builtCond, hcached, havail]
          have c4 : unbuiltCond st fm n = false := by simp [unbuiltCond, havail]
          rw [c1, c2, c3, c4]
          simp
        · intro x hx
          have hfx := hfresh x (by simp [hx])
          have hxn : x.srpmPath ≠ n.srpmPath := by
            intro hc
            exact hnmem (hc ▸ List.mem_map_of_mem PkgNode.srpmPath hx)
          refine ⟨hfx.1, hfx.2.1, ?_, hfx.2.2.2⟩
          simp only [keysOf, List.map_append, List.mem_append]
          rintro (hmem | hmem)
          · exact hfx.2.2.1 hmem
          · simp at hmem
            exact hxn hmem
      | false =>
        cases hlook : (lookupMap fm n.srpmPath).isSome with
        | true =>
          have hstep : processBuildNode mkVal st fm acc n = acc := by
            rw [processBuildNode, if_neg (by simp [hcached]),
              if_neg (by simp [havail]), if_pos hlook]
          rw [hstep, ih _ hndt (fun x hx => hfresh x (by simp [hx]))]
          simp only [List.filter_cons]
          have c1 : prebuiltCond st n = false := by simp [prebuiltCond, hcached]
          have c2 : prebuiltDeltaCond st n = false := by simp [prebuiltDeltaCond, hcached]
          have c3 : builtCond st n = false := by simp [builtCond, havail]
          have c4 : unbuiltCond st fm n = false := by simp [unbuiltCond, hlook]
          rw [c1, c2, c3, c4]
          simp
        | false =>
          have hstep : processBuildNode mkVal st fm acc n =
              ⟨acc.prebuiltSRPMs, acc.prebuiltDeltaSRPMS, acc.builtSRPMs,
               acc.unbuiltSRPMs ++ [(n.srpmPath, mkVal n)]⟩ := by
            rw [processBuildNode, if_neg (by simp [hcached]),
              if_neg (by simp [havail]), if_neg (by simp [hlook]),
              insertMap_of_not_mem _ _ _ hfn.2.2.2]
          rw [hstep, ih _ hndt ?_]
          · simp only [List.filter_cons]
            have c1 : prebuiltCond st n = false := by simp [prebuiltCond, hcached]
            have c2 : prebuiltDeltaCond st n = false := by simp [prebuiltDeltaCond, hcached]
            have c3 : builtCond st n = false := by simp [builtCond, havail]
            have c4 : unbuiltCond st fm n = true := by
              simp [unbuiltCond, hcached, havail, hlook]
            rw [c1, c2, c3, c4]
            simp
          · intro x hx
            have hfx := hfresh x (by simp [hx])
            have hxn : x.srpmPath ≠ n.srpmPath := by
              intro hc
              exact hnmem (hc ▸ List.mem_map_of_mem PkgNode.srpmPath hx)
            refine ⟨hfx.1, hfx.2.1, hfx.2.2.1, ?_⟩
            simp only [keysOf, List.map_append, List.mem_append]
            rintro (hmem | hmem)
            · exact hfx.2.2.2 hmem
            · simp at hmem
              exact hxn hmem

/-- Specialization to an empty accumulator: the classification loop is a
filter over the node list, provided the build nodes carry pairwise
distinct srpm paths. -/
theorem classifyBuildNodes_eq (mkVal : PkgNode → α) (g : PkgGraph)
    (st : GraphBuildState) (fm : List (String × β))
    (hnd : (g.allBuildNodes.map PkgNode.srpmPath).Nodup) :
    classifyBuildNodes mkVal g st fm =
      ⟨(g.allBuildNodes.filter (prebuiltCond st)).map (fun n => (n.srpmPath, mkVal n)),
       (g.allBuildNodes.filter (prebuiltDeltaCond st)).map (fun n => (n.srpmPath, mkVal n)),
       (g.allBuildNodes.filter (builtCond st)).map (fun n => (n.srpmPath, mkVal n)),
       (g.allBuildNodes.filter (unbuiltCond st fm)).map (fun n => (n.srpmPath, mkVal n))⟩ := by
  rw [classifyBuildNodes,
    foldl_processBuildNode_eq mkVal st fm g.allBuildNodes Categories.empty hnd
      (fun n _ => by simp [Categories.empty, keysOf])]
  simp [Categories.empty]

end ClassifyLemmas

section CountLemmas

variable {β : Type}

theorem countP_five_conds (st : GraphBuildState) (fm : List (String × β))
    (nodes : List PkgNode) :
    nodes.countP (prebuiltCond st) + nodes.countP (prebuiltDeltaCond st)
      + nodes.countP (builtCond st) + nodes.countP (unbuiltCond st fm)
      + nodes.countP (failedCond st fm) = nodes.length := by
  induction nodes with
  | nil => simp
  | cons n t ih =>
    simp only [List.countP_cons, List.length_cons]
    cases hc : st.isNodeCached n <;> cases hd : st.isNodeDelta n
      <;> cases ha : st.isNodeAvailable n
      <;> cases hl : (lookupMap fm n.srpmPath).isSome
      <;> simp [prebuiltCond, prebuiltDeltaCond, builtCond, unbuiltCond,
            failedCond, hc, hd, ha, hl]
      <;> omega

theorem mem_filter_map_keys (nodes : List PkgNode) (cond : PkgNode → Bool)
    (hnd : (nodes.map PkgNode.srpmPath).Nodup) (n : PkgNode) (hn : n ∈ nodes) :
    n.srpmPath ∈ (nodes.filter cond).map PkgNode.srpmPath ↔ cond n = true := by
  constructor
  · intro h
    obtain ⟨n2, hn2, hpath⟩ := List.mem_map.mp h
    have hn2mem := List.mem_of_mem_filter hn2
    have : n2 = n := List.inj_on_of_nodup_map hnd hn2mem hn hpath
    subst this
    exact (List.mem_filter.mp hn2).2
  · intro h
    exact List.mem_map.mpr ⟨n, List.mem_filter.mpr ⟨hn, h⟩, rfl⟩

theorem nodup_sub_length (L F : List String) (hL : L.Nodup) (hF : F.Nodup)
    (hsub : ∀ k ∈ F, k ∈ L) :
    L.countP (fun s => decide (s ∈ F)) = F.length := by
  rw [List.countP_eq_length_filter]
  have hfil : (L.filter (fun s => decide (s ∈ F))).Nodup := List.Nodup.filter _ hL
  have hmemiff : ∀ s, s ∈ L.filter (fun s => decide (s ∈ F)) ↔ s ∈ F := by
    intro s
    rw [List.mem_filter]
    constructor
    · intro h
      simpa using h.2
    · intro h
      exact ⟨hsub s h, by simpa using h⟩
  have hfin : (L.filter (fun s => decide (s ∈ F))).toFinset = F.toFinset := by
    apply Finset.ext
    intro s
    rw [List.mem_toFinset, List.mem_toFinset, hmemiff]
  have h1 := List.toFinset_card_of_nodup hfil
  have h2 := List.toFinset_card_of_nodup hF
  rw [← h1, ← h2, hfin]

/-- Under the well-formedness hypotheses, being keyed in the failed map is,
for a build node, the same as satisfying `failedCond`. -/
theorem mem_failedKeys_iff_failedCond (g : PkgGraph) (st : GraphBuildState)
    (hnd : (g.allBuildNodes.map PkgNode.srpmPath).Nodup)
    (hfail : ∀ f ∈ st.buildFailures, ∃ n ∈ g.allBuildNodes,
      n.srpmPath = f.node.srpmPath ∧ st.isNodeCached n = false
        ∧ st.isNodeAvailable n = false)
    (n : PkgNode) (hn : n ∈ g.allBuildNodes) :
    n.srpmPath ∈ keysOf (buildFailedMap st) ↔
      failedCond st (buildFailedMap st) n = true := by
  constructor
  · intro h
    obtain ⟨f, hf, hpath⟩ := (mem_keysOf_buildFailedMap st n.srpmPath).mp h
    obtain ⟨n2, hn2, hpath2, hc2, ha2⟩ := hfail f hf
    have heq : n2 = n :=
      List.inj_on_of_nodup_map hnd hn2 hn (by rw [hpath2, hpath])
    subst heq
    rw [failedCond, hc2, ha2]
    simp
    exact (lookupMap_isSome_iff _ _).mpr h
  · intro h
    rw [failedCond] at h
    simp only [Bool.and_eq_true] at h
    exact (lookupMap_isSome_iff _ _).mp h.2

theorem countP_failedCond_eq (g : PkgGraph) (st : GraphBuildState)
    (hnd : (g.allBuildNodes.map PkgNode.srpmPath).Nodup)
    (hfail : ∀ f ∈ st.buildFailures, ∃ n ∈ g.allBuildNodes,
      n.srpmPath = f.node.srpmPath ∧ st.isNodeCached n = false
        ∧ st.isNodeAvailable n = false) :
    g.allBuildNodes.countP (failedCond st (buildFailedMap st)) =
      (buildFailedMap st).length := by
  have hstep1 : g.allBuildNodes.countP (failedCond st (buildFailedMap st)) =
      g.allBuildNodes.countP (fun n => decide (n.srpmPath ∈ keysOf (buildFailedMap st))) := by
    apply List.countP_congr
    intro n hn
    simp only [decide_eq_true_eq]
    exact (mem_failedKeys_iff_failedCond g st hnd hfail n hn).symm
  rw [hstep1]
  have hstep2 : g.allBuildNodes.countP
      (fun n => decide (n.srpmPath ∈ keysOf (buildFailedMap st))) =
      (g.allBuildNodes.map PkgNode.srpmPath).countP
        (fun s => decide (s ∈ keysOf (buildFailedMap st))) := by
    rw [List.countP_map]
    rfl
  rw [hstep2]
  have hsub : ∀ k ∈ keysOf (buildFailedMap st), k ∈ g.allBuildNodes.map PkgNode.srpmPath := by
    intro k hk
    obtain ⟨f, hf, hpath⟩ := (mem_keysOf_buildFailedMap st k).mp hk
    obtain ⟨n2, hn2, hpath2, _, _⟩ := hfail f hf
    exact List.mem_map.mpr ⟨n2, hn2, by rw [hpath2, hpath]⟩
  rw [nodup_sub_length _ _ hnd (nodup_keysOf_buildFailedMap st) hsub]
  rw [keysOf, List.length_map]

end CountLemmas

section BridgeLemmas

variable {α β : Type}

theorem keysOf_foldInsert_val {α2 : Type} (p : β → Prop) [DecidablePred p]
    (key : β → String) (val1 : β → α) (val2 : β → α2) (l : List β)
    (m1 : List (String × α)) (m2 : List (String × α2))
    (h : keysOf m1 = keysOf m2) :
    keysOf (foldInsert p key val1 l m1) = keysOf (foldInsert p key val2 l m2) := by
  induction l generalizing m1 m2 with
  | nil => simpa [foldInsert] using h
  | cons b t ih =>
    rw [foldInsert, List.foldl_cons, foldInsert, List.foldl_cons]
    by_cases hb : p b
    · rw [if_pos hb, if_pos hb]
      exact ih (insertMap m1 (key b) (val1 b)) (insertMap m2 (key b) (val2 b))
        (by rw [keysOf_insertMap, keysOf_insertMap, h])
    · rw [if_neg hb, if_neg hb]
      exact ih m1 m2 h

theorem keysOf_buildFailedSet_eq (st : GraphBuildState) :
    keysOf (buildFailedSet st) = keysOf (buildFailedMap st) := by
  rw [buildFailedSet_eq_foldInsert, buildFailedMap_eq_foldInsert]
  exact keysOf_foldInsert_val _ _ _ _ _ _ _ rfl

theorem keysOf_pair_map (nodes : List PkgNode) (f : PkgNode → α) :
    keysOf (nodes.map (fun n => (n.srpmPath, f n))) = nodes.map PkgNode.srpmPath := by
  rw [keysOf, List.map_map]
  rfl

theorem processBuildNode_eq_applyOutcome (mkVal : PkgNode → α)
    (st : GraphBuildState) (fm : List (String × β)) (acc : Categories α)
    (node : PkgNode) :
    processBuildNode mkVal st fm acc node =
      applyOutcome mkVal acc node (classifyNode st (keysOf fm) node) := by
  rw [processBuildNode, classifyNode]
  cases hc : st.isNodeCached node with
  | true =>
    cases hd : st.isNodeDelta node with
    | true => simp [applyOutcome]
    | false => simp [applyOutcome]
  | false =>
    cases ha : st.isNodeAvailable node with
    | true => simp [applyOutcome]
    | false =>
      simp only [Bool.false_eq_true, if_false]
      cases hl : (lookupMap fm node.srpmPath).isSome with
      | true =>
        have hmem : node.srpmPath ∈ keysOf fm := (lookupMap_isSome_iff _ _).mp hl
        rw [if_pos rfl, if_pos hmem]
        simp [applyOutcome]
      | false =>
        have hmem : node.srpmPath ∉ keysOf fm := by
          intro hmemc
          rw [(lookupMap_isSome_iff _ _).mpr hmemc] at hl
          simp at hl
        rw [if_neg (by simp : ¬(false = true)), if_neg hmem]
        simp [applyOutcome]

end BridgeLemmas

section BlockerLemmas

theorem foldl_append_string (xs : List String) (s : String) :
    List.foldl (fun r t => r ++ t) s xs = s ++ String.join xs := by
  induction xs generalizing s with
  | nil => simp [String.join]
  | cons y ys ih =>
    rw [List.foldl_cons, ih]
    have hy : String.join (y :: ys) = y ++ String.join ys := by
      rw [String.join, List.foldl_cons, String.empty_append]
      rw [show List.foldl (fun r t => r ++ t) y ys = y ++ String.join ys from ih y]
    rw [hy, String.append_assoc]

theorem join_cons (x : String) (xs : List String) :
    String.join (x :: xs) = x ++ String.join xs := by
  rw [String.join, List.foldl_cons, String.empty_append]
  exact foldl_append_string xs x

theorem intercalate_go_eq (a s : String) (l : List String) :
    String.intercalate.go a s l = a ++ String.join (l.map (fun t => s ++ t)) := by
  induction l generalizing a with
  | nil =>
    rw [String.intercalate.go, List.map_nil,
      show String.join ([] : List String) = "" from rfl, String.append_empty]
  | cons b bs ih =>
    rw [String.intercalate.go, ih, List.map_cons, join_cons]
    simp [String.append_assoc]

theorem intercalate_eq_join (s : String) (l : List String) :
    String.intercalate s l =
      match l with
      | [] => ""
      | a :: as => a ++ String.join (as.map (fun t => s ++ t)) := by
  cases l with
  | nil => rfl
  | cons a as =>
    rw [String.intercalate, intercalate_go_eq]

theorem space_shift (as : List String) :
    " " ++ String.join (as.map (fun t => t ++ " ")) =
      String.join (as.map (fun t => " " ++ t)) ++ " " := by
  induction as with
  | nil => simp [String.join]
  | cons b bs ih =>
    rw [List.map_cons, join_cons, List.map_cons, join_cons]
    rw [show (" " : String) ++ ((b ++ " ") ++ String.join (bs.map (fun t => t ++ " ")))
        = ((" " ++ b) ++ (" " ++ String.join (bs.map (fun t => t ++ " ")))) by
      simp [String.append_assoc]]
    rw [ih]
    simp [String.append_assoc]

theorem join_append (a b : List String) :
    String.join (a ++ b) = String.join a ++ String.join b := by
  induction a with
  | nil => rw [List.nil_append, show String.join [] = "" from rfl, String.empty_append]
  | cons x xs ih =>
    rw [List.cons_append, join_cons, join_cons, ih, String.append_assoc]

theorem intercalate_cons (s a : String) (as : List String) :
    String.intercalate s (a :: as) = a ++ String.join (as.map (fun t => s ++ t)) := by
  rw [String.intercalate, intercalate_go_eq]

theorem join_map_space (l : List String) :
    String.join (l.map (fun t => t ++ " ")) =
      if l = [] then "" else String.intercalate " " l ++ " " := by
  cases l with
  | nil =>
    rw [if_pos rfl, List.map_nil]
    rfl
  | cons a as =>
    rw [if_neg (by simp), List.map_cons, join_cons, intercalate_cons,
      String.append_assoc, space_shift, String.append_assoc]

theorem blocker_fold_go (fm um : List (String × PkgNode)) (l : List PkgNode)
    (s : String) :
    l.foldl
      (fun s fromNode =>
        let s1 :=
          if (lookupMap fm fromNode.srpmPath).isSome then
            s ++ filepathBase fromNode.srpmPath ++ "-FAIL "
          else s
        if (lookupMap um fromNode.srpmPath).isSome then
          s1 ++ filepathBase fromNode.srpmPath ++ "-UNBUILT "
        else s1)
      s
    = s ++ String.join ((l.flatMap (fun fromNode =>
        (if (lookupMap fm fromNode.srpmPath).isSome then
           [filepathBase fromNode.srpmPath ++ "-FAIL"] else [])
          ++ (if (lookupMap um fromNode.srpmPath).isSome then
                [filepathBase fromNode.srpmPath ++ "-UNBUILT"] else []))).map
            (fun t => t ++ " ")) := by
  induction l generalizing s with
  | nil =>
    rw [List.foldl_nil, List.flatMap_nil, List.map_nil,
      show String.join [] = "" from rfl, String.append_empty]
  | cons x t ih =>
    rw [List.foldl_cons, List.flatMap_cons]
    cases hf : (lookupMap fm x.srpmPath).isSome
      <;> cases hu : (lookupMap um x.srpmPath).isSome
      <;> simp only [hf, hu, if_pos, if_neg, Bool.false_eq_true, if_false, if_true,
            List.nil_append, List.append_nil, List.cons_append, List.map_cons,
            List.map_append, join_cons, join_append]
      <;> rw [ih]
      <;> simp [String.append_assoc]

/-- The blocker string is the concatenation of the edge-order tokens, each
followed by one space. -/
theorem blockingNodesStr_eq_join (g : PkgGraph)
    (fm um : List (String × PkgNode)) (node : PkgNode) :
    blockingNodesStr g fm um node =
      String.join ((blockerTokens g fm um node).map (fun t => t ++ " ")) := by
  rw [blockingNodesStr, blockerTokens, blocker_fold_go, String.empty_append]

end BlockerLemmas

section CsvRoundTrip

theorem no_special_of_not_quotes (f : List Char) (hq : fieldNeedsQuotes f = false) :
    ∀ c ∈ f, (c = ',' || c = '"' || c = '\n' || c = '\r') = false := by
  intro c hc
  rw [fieldNeedsQuotes.eq_def] at hq
  by_cases h0 : f = []
  · subst h0; simp at hc
  · rw [if_neg h0] at hq
    by_cases h1 : f = ['\\', '.']
    · simp [h1] at hq
    · rw [if_neg h1] at hq
      by_cases h2 : f.any (fun c => c = ',' || c = '"' || c = '\n' || c = '\r')
      · simp [h2] at hq
      · have hfalse : f.any (fun c => c = ',' || c = '"' || c = '\n' || c = '\r') = false := by
          simpa using h2
        have hcq := List.any_eq_false.mp hfalse c hc
        simpa using hcq

theorem takeWhile_append_all (p : Char → Bool) (f rest : List Char)
    (hf : ∀ c ∈ f, p c = true) :
    (f ++ rest).takeWhile p = f ++ rest.takeWhile p ∧
      (f ++ rest).dropWhile p = rest.dropWhile p := by
  induction f with
  | nil => simp
  | cons a t ih =>
    have ha : p a = true := hf a (by simp)
    have iht := ih (fun c hc => hf c (by simp [hc]))
    simp only [List.cons_append, List.takeWhile_cons, List.dropWhile_cons, ha]
    simp [iht.1, iht.2]

theorem parseQuotedBody_escape (f rest : List Char) (h : rest.head? ≠ some '"') :
    parseQuotedBody (escapeQuotes f ++ '"' :: rest) = (f, rest) := by
  induction f with
  | nil =>
    rw [escapeQuotes]
    simp only [List.nil_append]
    apply parseQuotedBody_quote_stop
    intro r2 hc
    rw [hc] at h
    simp at h
  | cons c f2 ih =>
    by_cases hc : c = '"'
    · subst hc
      rw [escapeQuotes, if_pos rfl]
      simp only [List.cons_append]
      rw [parseQuotedBody_quote_quote, ih]
    · rw [escapeQuotes]
      simp only [if_neg hc, List.cons_append]
      rw [parseQuotedBody_cons c _ hc, ih]

theorem parseFieldStart_encode (f rest : List Char)
    (hrest : rest.head? = some ',' ∨ rest.head? = some '\n' ∨ rest = []) :
    parseFieldStart (encodeFieldChars f ++ rest) = (f, rest) := by
  by_cases hq : fieldNeedsQuotes f
  · rw [encodeFieldChars, if_pos hq]
    have heq : ('"' :: (escapeQuotes f ++ ['"'])) ++ rest
        = '"' :: (escapeQuotes f ++ '"' :: rest) := by
      simp
    rw [heq, parseFieldStart]
    apply parseQuotedBody_escape
    rcases hrest with h | h | h <;> simp [h]
  · rw [encodeFieldChars, if_neg (by simp [hq])]
    have hnospec := no_special_of_not_quotes f (by simpa using hq)
    have hp : ∀ c ∈ f, (decide (c ≠ ',') && decide (c ≠ '\n')) = true := by
      intro c hc
      have := hnospec c hc
      simp only [Bool.or_eq_false_iff, decide_eq_false_iff_not] at this
      obtain ⟨⟨⟨t1, t2⟩, t3⟩, t4⟩ := this
      simp [t1, t3]
    have hnq : ∀ r, f ++ rest ≠ '"' :: r := by
      intro r hc
      cases f with
      | nil =>
        simp only [List.nil_append] at hc
        rcases hrest with h | h | h
        · rw [hc] at h; simp at h
        · rw [hc] at h; simp at h
        · rw [h] at hc; simp at hc
      | cons a t =>
        simp only [List.cons_append, List.cons.injEq] at hc
        have := hnospec a (by simp)
        rw [hc.1] at this
        simp at this
    rw [parseFieldStart_not_quote _ hnq]
    have htw := takeWhile_append_all (fun c => c ≠ ',' && c ≠ '\n') f rest hp
    rw [htw.1, htw.2]
    rcases hrest with h | h | h
    · cases rest with
      | nil => simp at h
      | cons a t =>
        simp at h
        subst h
        simp [List.takeWhile_cons, List.dropWhile_cons]
    · cases rest with
      | nil => simp at h
      | cons a t =>
        simp at h
        subst h
        simp [List.takeWhile_cons, List.dropWhile_cons]
    · subst h
      simp

theorem parseFields_encode (r : List (List Char)) (rest : List Char) (hr : r ≠ []) :
    parseFields (encodeRecordChars r ++ rest) =
      (r.map (fun f => String.mk f), rest) := by
  induction r with
  | nil => exact absurd rfl hr
  | cons f t ih =>
    cases t with
    | nil =>
      have hsplit : encodeRecordChars [f] ++ rest
          = encodeFieldChars f ++ '\n' :: rest := by
        simp [encodeRecordChars, encodeFieldsChars]
      rw [hsplit]
      have hps := parseFieldStart_encode f ('\n' :: rest) (by simp)
      rw [parseFields.eq_def, hps]
      simp
    | cons f2 t2 =>
      have hsplit : encodeRecordChars (f :: f2 :: t2) ++ rest
          = encodeFieldChars f ++ ',' :: (encodeRecordChars (f2 :: t2) ++ rest) := by
        simp [encodeRecordChars, encodeFieldsChars]
      rw [hsplit]
      have hps := parseFieldStart_encode f
        (',' :: (encodeRecordChars (f2 :: t2) ++ rest)) (by simp)
      rw [parseFields.eq_def, hps]
      simp only [List.head?_cons, Option.some.injEq, List.tail_cons, dif_pos rfl]
      rw [ih (by simp)]
      simp

theorem encodeRecordChars_ne_nil (r : List (List Char)) : encodeRecordChars r ≠ [] := by
  simp [encodeRecordChars]

theorem parseRows_encode (rows : List (List (List Char)))
    (hrows : ∀ r ∈ rows, r ≠ []) :
    parseRows (rows.flatMap encodeRecordChars) =
      rows.map (fun r => r.map (fun f => String.mk f)) := by
  induction rows with
  | nil => simp [parseRows]
  | cons r t ih =>
    have hne : encodeRecordChars r ++ t.flatMap encodeRecordChars ≠ [] := by
      intro hc
      exact encodeRecordChars_ne_nil r (List.append_eq_nil.mp hc).1
    rw [List.flatMap_cons, parseRows.eq_def, dif_neg hne]
    rw [parseFields_encode r _ (hrows r (by simp))]
    simp only
    rw [ih (fun x hx => hrows x (by simp [hx]))]
    simp

theorem writeCsv_parseCsv (rows : List (List String)) (hrows : ∀ r ∈ rows, r ≠ []) :
    parseCsv (writeCsv rows) = rows := by
  rw [parseCsv, writeCsv]
  have hdata : (String.mk ((rows.map (fun r => r.map String.toList)).flatMap encodeRecordChars)).toList
      = (rows.map (fun r => r.map String.toList)).flatMap encodeRecordChars := rfl
  rw [hdata, parseRows_encode]
  · simp only [List.map_map]
    have hrow : ((fun r : List (List Char) => r.map (fun f => String.mk f))
        ∘ fun r : List String => r.map String.toList) = id := by
      funext r
      simp only [Function.comp_apply, List.map_map, id_eq]
      have hid : ((fun f : List Char => String.mk f) ∘ String.toList) = id := by
        funext s
        rfl
      rw [hid, List.map_id]
    rw [hrow, List.map_id]
  · intro r hrr
    simp only [List.mem_map] at hrr
    obtain ⟨r0, hr0, heq⟩ := hrr
    intro hc
    rw [← heq] at hc
    simp only [List.map_eq_nil_iff] at hc
    exact hrows r0 hr0 hc

end CsvRoundTrip

section TokenLemmas

theorem join_split_of_mem (tok : String) (l : List String) (h : tok ∈ l) :
    ∃ s1 s2, String.join (l.map (fun t => t ++ " ")) = s1 ++ tok ++ " " ++ s2 := by
  obtain ⟨l1, l2, rfl⟩ := List.append_of_mem h
  rw [List.map_append, List.map_cons, join_append, join_cons]
  exact ⟨String.join (l1.map (fun t => t ++ " ")),
    String.join (l2.map (fun t => t ++ " ")),
    by simp [String.append_assoc]⟩

theorem mem_blockerTokens_fail (g : PkgGraph) (fm um : List (String × PkgNode))
    (node pred : PkgNode) (hpred : pred ∈ g.fromNodes node.id)
    (h : (lookupMap fm pred.srpmPath).isSome = true) :
    (filepathBase pred.srpmPath ++ "-FAIL") ∈ blockerTokens g fm um node := by
  rw [blockerTokens]
  refine List.mem_flatMap.mpr ⟨pred, hpred, ?_⟩
  rw [if_pos h]
  simp

theorem mem_blockerTokens_unbuilt (g : PkgGraph) (fm um : List (String × PkgNode))
    (node pred : PkgNode) (hpred : pred ∈ g.fromNodes node.id)
    (h : (lookupMap um pred.srpmPath).isSome = true) :
    (filepathBase pred.srpmPath ++ "-UNBUILT") ∈ blockerTokens g fm um node := by
  rw [blockerTokens]
  refine List.mem_flatMap.mpr ⟨pred, hpred, ?_⟩
  rw [if_pos h]
  simp

end TokenLemmas

section ConcreteInputs

/-- A build node with every flag clear, srpm path "p". -/
def nodeP : PkgNode := ⟨0, "p", "p", NodeType.build, NodeState.resolved⟩

/-- A second build node sharing the srpm path "p". -/
def nodeP2 : PkgNode := ⟨1, "p", "p", NodeType.build, NodeState.resolved⟩

/-- A node with srpm path "q" that appears only in the failure list. -/
def nodeQ : PkgNode := ⟨2, "q", "q", NodeType.build, NodeState.resolved⟩

/-- Build state whose predicates are all false. -/
def stAllFalse (failures : List Failure) (rpmC srpmC : List String) :
    GraphBuildState :=
  ⟨fun _ => false, fun _ => false, fun _ => false, failures, rpmC, srpmC⟩

/-- C1 counterexample input: one build node "p", one failure whose node
"q" matches no build node. -/
def gC1 : PkgGraph := ⟨[nodeP], [], fun _ => []⟩

/-- C1 counterexample state. -/
def stC1 : GraphBuildState := stAllFalse [⟨nodeQ, "err", "log"⟩] [] []

end ConcreteInputs

section Claims

/-- C1 (corrected): on arbitrary inputs the category-size sum can differ
from the build-node count.  Under the two scheduler invariants — build
nodes carry pairwise distinct srpm paths, and every failure record
denotes the srpm path of some build node that is neither cached nor
available — the five category maps of `RecordBuildSummary` partition the
build nodes: their sizes sum to the number of build nodes, every build
node's srpm path is keyed in exactly one of the five maps, and the
parallel pass of `PrintBuildSummary` produces sets of the same sizes. -/
theorem c1_partition (g : PkgGraph) (st : GraphBuildState)
    (hnd : (g.allBuildNodes.map PkgNode.srpmPath).Nodup)
    (hfail : ∀ f ∈ st.buildFailures, ∃ n ∈ g.allBuildNodes,
      n.srpmPath = f.node.srpmPath ∧ st.isNodeCached n = false
        ∧ st.isNodeAvailable n = false) :
    ((categoryMaps g st).builtSRPMs.length + (categoryMaps g st).prebuiltSRPMs.length
      + (categoryMaps g st).prebuiltDeltaSRPMS.length + (buildFailedMap st).length
      + (categoryMaps g st).unbuiltSRPMs.length = g.allBuildNodes.length)
    ∧ (∀ n ∈ g.allBuildNodes,
        ([keysOf (categoryMaps g st).builtSRPMs,
          keysOf (categoryMaps g st).prebuiltSRPMs,
          keysOf (categoryMaps g st).prebuiltDeltaSRPMS,
          keysOf (buildFailedMap st),
          keysOf (categoryMaps g st).unbuiltSRPMs].countP
            (fun ks => decide (n.srpmPath ∈ ks))) = 1)
    ∧ ((printCategories g st).builtSRPMs.length = (categoryMaps g st).builtSRPMs.length
        ∧ (printCategories g st).prebuiltSRPMs.length = (categoryMaps g st).prebuiltSRPMs.length
        ∧ (printCategories g st).prebuiltDeltaSRPMS.length = (categoryMaps g st).prebuiltDeltaSRPMS.length
        ∧ (printCategories g st).unbuiltSRPMs.length = (categoryMaps g st).unbuiltSRPMs.length
        ∧ (buildFailedSet st).length = (buildFailedMap st).length) := by
  have hcats := classifyBuildNodes_eq (fun n => n) g st (buildFailedMap st) hnd
  have hlen1 : (categoryMaps g st).builtSRPMs.length
      = g.allBuildNodes.countP (builtCond st) := by
    rw [categoryMaps, hcats]
    simp [List.countP_eq_length_filter]
  have hlen2 : (categoryMaps g st).prebuiltSRPMs.length
      = g.allBuildNodes.countP (prebuiltCond st) := by
    rw [categoryMaps, hcats]
    simp [List.countP_eq_length_filter]
  have hlen3 : (categoryMaps g st).prebuiltDeltaSRPMS.length
      = g.allBuildNodes.countP (prebuiltDeltaCond st) := by
    rw [categoryMaps, hcats]
    simp [List.countP_eq_length_filter]
  have hlen4 : (categoryMaps g st).unbuiltSRPMs.length
      = g.allBuildNodes.countP (unbuiltCond st (buildFailedMap st)) := by
    rw [categoryMaps, hcats]
    simp [List.countP_eq_length_filter]
  have hlen5 := countP_failedCond_eq g st hnd hfail
  have hsum := countP_five_conds st (buildFailedMap st) g.allBuildNodes
  refine ⟨by omega, ?_, ?_⟩
  · intro n hn
    have hmem1 : n.srpmPath ∈ keysOf (categoryMaps g st).builtSRPMs ↔ builtCond st n = true := by
      rw [categoryMaps, hcats]
      rw [show (Categories.mk
          ((g.allBuildNodes.filter (prebuiltCond st)).map (fun n => (n.srpmPath, n)))
          ((g.allBuildNodes.filter (prebuiltDeltaCond st)).map (fun n => (n.srpmPath, n)))
          ((g.allBuildNodes.filter (builtCond st)).map (fun n => (n.srpmPath, n)))
          ((g.allBuildNodes.filter (unbuiltCond st (buildFailedMap st))).map (fun n => (n.srpmPath, n)))).builtSRPMs
        = (g.allBuildNodes.filter (builtCond st)).map (fun n => (n.srpmPath, n)) from rfl]
      rw [keysOf_pair_map]
      exact mem_filter_map_keys _ _ hnd n hn
    have hmem2 : n.srpmPath ∈ keysOf (categoryMaps g st).prebuiltSRPMs ↔ prebuiltCond st n = true := by
      rw [categoryMaps, hcats]
      rw [show (Categories.mk
          ((g.allBuildNodes.filter (prebuiltCond st)).map (fun n => (n.srpmPath, n)))
          ((g.allBuildNodes.filter (prebuiltDeltaCond st)).map (fun n => (n.srpmPath, n)))
          ((g.allBuildNodes.filter (builtCond st)).map (fun n => (n.srpmPath, n)))
          ((g.allBuildNodes.filter (unbuiltCond st (buildFailedMap st))).map (fun n => (n.srpmPath, n)))).prebuiltSRPMs
        = (g.allBuildNodes.filter (prebuiltCond st)).map (fun n => (n.srpmPath, n)) from rfl]
      rw [keysOf_pair_map]
      exact mem_filter_map_keys _ _ hnd n hn
    have hmem3 : n.srpmPath ∈ keysOf (categoryMaps g st).prebuiltDeltaSRPMS ↔ prebuiltDeltaCond st n = true := by
      rw [categoryMaps, hcats]
      rw [show (Categories.mk
          ((g.allBuildNodes.filter (prebuiltCond st)).map (fun n => (n.srpmPath, n)))
          ((g.allBuildNodes.filter (prebuiltDeltaCond st)).map (fun n => (n.srpmPath, n)))
          ((g.allBuildNodes.filter (builtCond st)).map (fun n => (n.srpmPath, n)))
          ((g.allBuildNodes.filter (unbuiltCond st (buildFailedMap st))).map (fun n => (n.srpmPath, n)))).prebuiltDeltaSRPMS
        = (g.allBuildNodes.filter (prebuiltDeltaCond st)).map (fun n => (n.srpmPath, n)) from rfl]
      rw [keysOf_pair_map]
      exact mem_filter_map_keys _ _ hnd n hn
    have hmem4 : n.srpmPath ∈ keysOf (buildFailedMap st)
        ↔ failedCond st (buildFailedMap st) n = true :=
      mem_failedKeys_iff_failedCond g st hnd hfail n hn
    have hmem5 : n.srpmPath ∈ keysOf (categoryMaps g st).unbuiltSRPMs
        ↔ unbuiltCond st (buildFailedMap st) n = true := by
      rw [categoryMaps, hcats]
      rw [show (Categories.mk
          ((g.allBuildNodes.filter (prebuiltCond st)).map (fun n => (n.srpmPath, n)))
          ((g.allBuildNodes.filter (prebuiltDeltaCond st)).map (fun n => (n.srpmPath, n)))
          ((g.allBuildNodes.filter (builtCond st)).map (fun n => (n.srpmPath, n)))
          ((g.allBuildNodes.filter (unbuiltCond st (buildFailedMap st))).map (fun n => (n.srpmPath, n)))).unbuiltSRPMs
        = (g.allBuildNodes.filter (unbuiltCond st (buildFailedMap st))).map (fun n => (n.srpmPath, n)) from rfl]
      rw [keysOf_pair_map]
      exact mem_filter_map_keys _ _ hnd n hn
    simp only [List.countP_cons, List.countP_nil, decide_eq_true_eq,
      hmem1, hmem2, hmem3, hmem4, hmem5]
    cases hc : st.isNodeCached n <;> cases hd : st.isNodeDelta n
      <;> cases ha : st.isNodeAvailable n
      <;> cases hl : (lookupMap (buildFailedMap st) n.srpmPath).isSome
      <;> simp [prebuiltCond, prebuiltDeltaCond, builtCond, unbuiltCond,
            failedCond, hc, hd, ha, hl]
  · have hkeysEq := keysOf_buildFailedSet_eq st
    have hcondEq : ∀ n ∈ g.allBuildNodes,
        unbuiltCond st (buildFailedSet st) n = unbuiltCond st (buildFailedMap st) n := by
      intro n _
      rw [unbuiltCond, unbuiltCond]
      have : (lookupMap (buildFailedSet st) n.srpmPath).isSome
          = (lookupMap (buildFailedMap st) n.srpmPath).isSome := by
        rw [Bool.eq_iff_iff, lookupMap_isSome_iff, lookupMap_isSome_iff, hkeysEq]
      rw [this]
    have hp := classifyBuildNodes_eq (fun _ => true) g st (buildFailedSet st) hnd
    have hfilterEq : g.allBuildNodes.filter (unbuiltCond st (buildFailedSet st))
        = g.allBuildNodes.filter (unbuiltCond st (buildFailedMap st)) :=
      List.filter_congr hcondEq
    refine ⟨?_, ?_, ?_, ?_, ?_⟩
    · rw [printCategories, hp, categoryMaps, hcats]
      simp
    · rw [printCategories, hp, categoryMaps, hcats]
      simp
    · rw [printCategories, hp, categoryMaps, hcats]
      simp
    · rw [printCategories, hp, categoryMaps, hcats]
      simp [hfilterEq]
    · have h1 : (buildFailedSet st).length = (keysOf (buildFailedSet st)).length := by
        rw [keysOf, List.length_map]
      have h2 : (buildFailedMap st).length = (keysOf (buildFailedMap st)).length := by
        rw [keysOf, List.length_map]
      rw [h1, h2, hkeysEq]

/-- C1 counterexample: with one build node of srpm path "p" (no flags set)
and a failure record for an unrelated node of path "q", the five category
sizes sum to 2 while there is a single build node. -/
theorem c1_claim_counterexample :
    ¬((categoryMaps gC1 stC1).builtSRPMs.length + (categoryMaps gC1 stC1).prebuiltSRPMs.length
      + (categoryMaps gC1 stC1).prebuiltDeltaSRPMS.length + (buildFailedMap stC1).length
      + (categoryMaps gC1 stC1).unbuiltSRPMs.length = gC1.allBuildNodes.length) := by
  decide

/-- C1 witness: the amended theorem applied to a concrete two-node graph
(one available node "a/x.srpm", one failed node "b/y.srpm"). -/
def gW1 : PkgGraph :=
  ⟨[⟨0, "a/x.srpm", "x", NodeType.build, NodeState.resolved⟩,
    ⟨1, "b/y.srpm", "y", NodeType.build, NodeState.resolved⟩], [], fun _ => []⟩

/-- C1 witness build state: node 0 available, node 1 failed. -/
def stW1 : GraphBuildState :=
  ⟨fun _ => false, fun _ => false, fun n => n.id = 0,
   [⟨⟨1, "b/y.srpm", "y", NodeType.build, NodeState.resolved⟩, "compile error", "/logs/y.log"⟩],
   [], []⟩

theorem c1_partition_witness :
    (categoryMaps gW1 stW1).builtSRPMs.length + (categoryMaps gW1 stW1).prebuiltSRPMs.length
      + (categoryMaps gW1 stW1).prebuiltDeltaSRPMS.length + (buildFailedMap stW1).length
      + (categoryMaps gW1 stW1).unbuiltSRPMs.length = gW1.allBuildNodes.length :=
  (c1_partition gW1 stW1 (by decide) (by decide)).1

/-- C4: classification follows the first-match priority order of the
loop: cached nodes are PrebuiltDelta/Prebuilt by the delta flag regardless
of availability and failure-list membership; non-cached available nodes
are Built; non-cached, non-available nodes are Failed exactly when their
srpm path is keyed in the failed map and Unbuilt otherwise; and the loop
body of `RecordBuildSummary` implements exactly this decision. -/
theorem c4_priority {α : Type} (mkVal : PkgNode → α) (st : GraphBuildState)
    (fm : List (String × α)) (node : PkgNode) :
    (classifyNode st (keysOf fm) node = Outcome.prebuiltDelta
      ↔ st.isNodeCached node = true ∧ st.isNodeDelta node = true)
    ∧ (classifyNode st (keysOf fm) node = Outcome.prebuilt
      ↔ st.isNodeCached node = true ∧ st.isNodeDelta node = false)
    ∧ (classifyNode st (keysOf fm) node = Outcome.built
      ↔ st.isNodeCached node = false ∧ st.isNodeAvailable node = true)
    ∧ (classifyNode st (keysOf fm) node = Outcome.failed
      ↔ st.isNodeCached node = false ∧ st.isNodeAvailable node = false
          ∧ node.srpmPath ∈ keysOf fm)
    ∧ (classifyNode st (keysOf fm) node = Outcome.unbuilt
      ↔ st.isNodeCached node = false ∧ st.isNodeAvailable node = false
          ∧ node.srpmPath ∉ keysOf fm)
    ∧ (∀ acc : Categories α,
        processBuildNode mkVal st fm acc node
          = applyOutcome mkVal acc node (classifyNode st (keysOf fm) node)) := by
  refine ⟨?_, ?_, ?_, ?_, ?_, fun acc => processBuildNode_eq_applyOutcome mkVal st fm acc node⟩
    <;> cases hc : st.isNodeCached node
    <;> cases hd : st.isNodeDelta node
    <;> cases ha : st.isNodeAvailable node
    <;> by_cases hm : node.srpmPath ∈ keysOf fm
    <;> simp [classifyNode, hc, hd, ha, hm]

/-- C8: the unresolved-dependency set computed by both summary passes
holds exactly the versioned-package display strings of the unresolved
run-type nodes, deduplicated, and only run-type nodes contribute. -/
theorem c8_unresolved (g : PkgGraph)
    (hwf : ∀ n ∈ g.allRunNodes, n.typ = NodeType.run) :
    (∀ s, (lookupMap (unresolvedDependencies g) s).isSome = true
      ↔ ∃ n ∈ g.allRunNodes, n.state = NodeState.unresolved ∧ n.versionedPkg = s)
    ∧ (keysOf (unresolvedDependencies g)).Nodup
    ∧ (∀ s, (lookupMap (unresolvedDependencies g) s).isSome = true
        → ∃ n, n.typ = NodeType.run ∧ n ∈ g.allRunNodes
            ∧ n.state = NodeState.unresolved ∧ n.versionedPkg = s) := by
  refine ⟨?_, nodup_keysOf_unresolvedDependencies g, ?_⟩
  · intro s
    rw [lookupMap_isSome_iff, mem_keysOf_unresolvedDependencies]
  · intro s hs
    obtain ⟨n, hn, hstate, hpkg⟩ :=
      (mem_keysOf_unresolvedDependencies g s).mp ((lookupMap_isSome_iff _ _).mp hs)
    exact ⟨n, hwf n hn, hn, hstate, hpkg⟩

/-- C8 witness input: one unresolved run node displaying "d-1.0". -/
def gW8 : PkgGraph :=
  ⟨[], [⟨7, "d.srpm", "d-1.0", NodeType.run, NodeState.unresolved⟩], fun _ => []⟩

theorem c8_unresolved_witness :
    (lookupMap (unresolvedDependencies gW8) "d-1.0").isSome = true :=
  ((c8_unresolved gW8 (by decide)).1 "d-1.0").mpr (by decide)

/-- C3 counterexample inputs: a failed node "b.srpm" is the only direct
predecessor of the unbuilt node "c.srpm". -/
def nodeB3 : PkgNode := ⟨1, "b.srpm", "b", NodeType.build, NodeState.resolved⟩

/-- The unbuilt node of the C3 counterexample. -/
def nodeC3 : PkgNode := ⟨2, "c.srpm", "c", NodeType.build, NodeState.resolved⟩

/-- The C3 counterexample graph. -/
def gC3 : PkgGraph := ⟨[nodeC3], [], fun i => if i = 2 then [nodeB3] else []⟩

/-- The C3 counterexample state. -/
def stC3 : GraphBuildState := stAllFalse [⟨nodeB3, "e", "l"⟩] [] []

/-- C3 counterexample: the blocker string carries a trailing space, so it
is not the space-joined concatenation of the tokens ("b.srpm-FAIL " vs
"b.srpm-FAIL"); the CSV row shows the actual annotation. -/
theorem c3_claim_counterexample :
    blockingNodesStr gC3 (buildFailedMap stC3) (categoryMaps gC3 stC3).unbuiltSRPMs nodeC3
      ≠ blockerJoined gC3 (buildFailedMap stC3) (categoryMaps gC3 stC3).unbuiltSRPMs nodeC3
    ∧ (recordBuildSummaryBlob gC3 stC3).get? 2
        = some ["c.srpm", "Unbuilt", "b.srpm-FAIL "] := by
  decide

/-- C3 (corrected): the annotation concatenates, in edge order, one token
per qualifying predecessor per set, each token followed by a single space
(equivalently: the space-joined token list plus one trailing space when
nonempty), and it is empty exactly when no predecessor qualifies. -/
theorem c3_blocker (g : PkgGraph) (fm um : List (String × PkgNode))
    (node : PkgNode) :
    (blockingNodesStr g fm um node
      = String.join ((blockerTokens g fm um node).map (fun t => t ++ " ")))
    ∧ (blockingNodesStr g fm um node
      = if blockerTokens g fm um node = [] then ""
        else String.intercalate " " (blockerTokens g fm um node) ++ " ")
    ∧ (blockerTokens g fm um node = []
      ↔ ∀ pred ∈ g.fromNodes node.id,
          (lookupMap fm pred.srpmPath).isSome = false
            ∧ (lookupMap um pred.srpmPath).isSome = false) := by
  refine ⟨blockingNodesStr_eq_join g fm um node, ?_, ?_⟩
  · rw [blockingNodesStr_eq_join g fm um node, join_map_space]
  · rw [blockerTokens, List.flatMap_eq_nil_iff]
    constructor
    · intro h pred hpred
      have := h pred hpred
      constructor
      · cases hval : (lookupMap fm pred.srpmPath).isSome with
        | false => rfl
        | true =>
          rw [if_pos hval] at this
          simp at this
      · cases hval : (lookupMap um pred.srpmPath).isSome with
        | false => rfl
        | true =>
          rw [if_pos hval] at this
          simp at this
    · intro h pred hpred
      rw [if_neg (by simp [(h pred hpred).1]), if_neg (by simp [(h pred hpred).2])]
      simp

/-- C6: when the output file cannot be created, or the CSV write fails,
`RecordBuildSummary` logs exactly one warning naming the path and returns
normally (the return type of the model carries no error channel, matching
the Go function's lack of an error result); on success nothing is logged
and the encoded table is written. -/
theorem c6_io_failure (g : PkgGraph) (st : GraphBuildState)
    (outputPath e : String) (w : FileOpResult) :
    (recordBuildSummaryRun g st outputPath (FileOpResult.opErr e) w
      = ([(LogLevel.warn, "Unable to create '" ++ outputPath ++ "' file. Error: " ++ e)], none))
    ∧ (recordBuildSummaryRun g st outputPath FileOpResult.ok (FileOpResult.opErr e)
      = ([(LogLevel.warn, "Failed to write to CSV file '" ++ outputPath ++ "'. Error: " ++ e)], none))
    ∧ (recordBuildSummaryRun g st outputPath FileOpResult.ok FileOpResult.ok
      = ([], some (writeCsv (recordBuildSummaryBlob g st))))
    ∧ (∀ c w2, ((recordBuildSummaryRun g st outputPath c w2).1.all
        (fun l => l.1 = LogLevel.warn)) = true) := by
  refine ⟨rfl, rfl, rfl, ?_⟩
  intro c w2
  cases c with
  | opErr e2 => rfl
  | ok =>
    cases w2 with
    | opErr e2 => rfl
    | ok => rfl

/-- The CSV table, with the let-bindings of the definition unfolded. -/
theorem recordBuildSummaryBlob_eq (g : PkgGraph) (st : GraphBuildState) :
    recordBuildSummaryBlob g st
      = ["Package", "State", "Blocker"]
        :: ((categoryMaps g st).builtSRPMs.map
              (fun p => [filepathBase p.2.srpmPath, "Built"])
          ++ (categoryMaps g st).prebuiltSRPMs.map
              (fun p => [filepathBase p.2.srpmPath, "PreBuilt"])
          ++ (categoryMaps g st).prebuiltDeltaSRPMS.map
              (fun p => [filepathBase p.2.srpmPath, "PreBuiltDelta"])
          ++ (buildFailedMap st).map
              (fun p => [filepathBase p.2.srpmPath, "Failed",
                blockingNodesStr g (buildFailedMap st) (categoryMaps g st).unbuiltSRPMs p.2])
          ++ (categoryMaps g st).unbuiltSRPMs.map
              (fun p => [filepathBase p.2.srpmPath, "Unbuilt",
                blockingNodesStr g (buildFailedMap st) (categoryMaps g st).unbuiltSRPMs p.2])) :=
  rfl

/-- C9: the header and the Failed/Unbuilt rows have three fields, while
every Built, PreBuilt and PreBuiltDelta row has exactly two fields (no
Blocker field at all), so the emitted table has inconsistent record
lengths. -/
theorem c9_row_shapes (g : PkgGraph) (st : GraphBuildState) :
    (recordBuildSummaryBlob g st).head? = some ["Package", "State", "Blocker"]
    ∧ ∀ row ∈ (recordBuildSummaryBlob g st).drop 1,
        (row.length = 2
          ∧ (row.get? 1 = some "Built" ∨ row.get? 1 = some "PreBuilt"
              ∨ row.get? 1 = some "PreBuiltDelta"))
        ∨ (row.length = 3
            ∧ (row.get? 1 = some "Failed" ∨ row.get? 1 = some "Unbuilt")) := by
  rw [recordBuildSummaryBlob_eq]
  refine ⟨rfl, ?_⟩
  intro row hrow
  simp only [List.drop_succ_cons, List.drop_zero, List.mem_append, List.mem_map] at hrow
  rcases hrow with ((((⟨p, _, hp⟩ | ⟨p, _, hp⟩) | ⟨p, _, hp⟩) | ⟨p, _, hp⟩) | ⟨p, _, hp⟩)
    <;> rw [← hp]
  · exact Or.inl ⟨rfl, Or.inl rfl⟩
  · exact Or.inl ⟨rfl, Or.inr (Or.inl rfl)⟩
  · exact Or.inl ⟨rfl, Or.inr (Or.inr rfl)⟩
  · exact Or.inr ⟨rfl, Or.inl rfl⟩
  · exact Or.inr ⟨rfl, Or.inr rfl⟩

theorem c9_row_shapes_witness :
    ((["x.srpm", "Built"] : List String).length = 2
      ∧ ((["x.srpm", "Built"] : List String).get? 1 = some "Built"
          ∨ (["x.srpm", "Built"] : List String).get? 1 = some "PreBuilt"
          ∨ (["x.srpm", "Built"] : List String).get? 1 = some "PreBuiltDelta"))
    ∨ ((["x.srpm", "Built"] : List String).length = 3
        ∧ ((["x.srpm", "Built"] : List String).get? 1 = some "Failed"
            ∨ (["x.srpm", "Built"] : List String).get? 1 = some "Unbuilt")) :=
  (c9_row_shapes gW1 stW1).2 ["x.srpm", "Built"] (by decide)

theorem mem_blob_failedRow (g : PkgGraph) (st : GraphBuildState)
    (p : String × PkgNode) (hp : p ∈ buildFailedMap st) :
    [filepathBase p.2.srpmPath, "Failed",
      blockingNodesStr g (buildFailedMap st) (categoryMaps g st).unbuiltSRPMs p.2]
      ∈ recordBuildSummaryBlob g st := by
  rw [recordBuildSummaryBlob_eq]
  exact List.mem_cons_of_mem _
    (List.mem_append.mpr (Or.inl
      (List.mem_append.mpr (Or.inr (List.mem_map.mpr ⟨p, hp, rfl⟩)))))

/-- C7: a Failed node's CSV row is produced by the same blocker rule as an
Unbuilt row; if it has a qualifying predecessor, that predecessor's token
appears inside the emitted Blocker field rather than being suppressed. -/
theorem c7_failed_blocker (g : PkgGraph) (st : GraphBuildState)
    (srpm : String) (node pred : PkgNode)
    (hmem : (srpm, node) ∈ buildFailedMap st)
    (hpred : pred ∈ g.fromNodes node.id)
    (hqual : (lookupMap (buildFailedMap st) pred.srpmPath).isSome = true
      ∨ (lookupMap (categoryMaps g st).unbuiltSRPMs pred.srpmPath).isSome = true) :
    ∃ row ∈ recordBuildSummaryBlob g st,
      row = [filepathBase node.srpmPath, "Failed",
        blockingNodesStr g (buildFailedMap st) (categoryMaps g st).unbuiltSRPMs node]
      ∧ ∃ suf s1 s2, (suf = "-FAIL" ∨ suf = "-UNBUILT")
        ∧ blockingNodesStr g (buildFailedMap st) (categoryMaps g st).unbuiltSRPMs node
            = s1 ++ (filepathBase pred.srpmPath ++ suf) ++ " " ++ s2 := by
  refine ⟨_, mem_blob_failedRow g st (srpm, node) hmem, rfl, ?_⟩
  rcases hqual with hq | hq
  · have htok := mem_blockerTokens_fail g (buildFailedMap st)
      (categoryMaps g st).unbuiltSRPMs node pred hpred hq
    obtain ⟨s1, s2, hsplit⟩ := join_split_of_mem _ _ htok
    exact ⟨"-FAIL", s1, s2, Or.inl rfl, by
      rw [blockingNodesStr_eq_join]
      exact hsplit⟩
  · have htok := mem_blockerTokens_unbuilt g (buildFailedMap st)
      (categoryMaps g st).unbuiltSRPMs node pred hpred hq
    obtain ⟨s1, s2, hsplit⟩ := join_split_of_mem _ _ htok
    exact ⟨"-UNBUILT", s1, s2, Or.inr rfl, by
      rw [blockingNodesStr_eq_join]
      exact hsplit⟩

/-- C7 witness input: unbuilt node "u.srpm". -/
def nodeU7 : PkgNode := ⟨3, "u.srpm", "u", NodeType.build, NodeState.resolved⟩

/-- C7 witness input: failed node "f.srpm" whose only direct predecessor
is the unbuilt node. -/
def nodeF7 : PkgNode := ⟨5, "f.srpm", "f", NodeType.build, NodeState.resolved⟩

/-- C7 witness graph. -/
def gW7 : PkgGraph := ⟨[nodeU7], [], fun i => if i = 5 then [nodeU7] else []⟩

/-- C7 witness state. -/
def stW7 : GraphBuildState := stAllFalse [⟨nodeF7, "boom", "log"⟩] [] []

theorem c7_failed_blocker_witness :
    ∃ row ∈ recordBuildSummaryBlob gW7 stW7,
      row = [filepathBase nodeF7.srpmPath, "Failed",
        blockingNodesStr gW7 (buildFailedMap stW7) (categoryMaps gW7 stW7).unbuiltSRPMs nodeF7]
      ∧ ∃ suf s1 s2, (suf = "-FAIL" ∨ suf = "-UNBUILT")
        ∧ blockingNodesStr gW7 (buildFailedMap stW7) (categoryMaps gW7 stW7).unbuiltSRPMs nodeF7
            = s1 ++ (filepathBase nodeU7.srpmPath ++ suf) ++ " " ++ s2 :=
  c7_failed_blocker gW7 stW7 "f.srpm" nodeF7 nodeU7 (by decide) (by decide)
    (Or.inr (by decide))

theorem nodup_keys_processBuildNode {α β : Type} (mkVal : PkgNode → α)
    (st : GraphBuildState) (fm : List (String × β)) (acc : Categories α)
    (node : PkgNode)
    (h : (keysOf acc.prebuiltSRPMs).Nodup ∧ (keysOf acc.prebuiltDeltaSRPMS).Nodup
      ∧ (keysOf acc.builtSRPMs).Nodup ∧ (keysOf acc.unbuiltSRPMs).Nodup) :
    (keysOf (processBuildNode mkVal st fm acc node).prebuiltSRPMs).Nodup
    ∧ (keysOf (processBuildNode mkVal st fm acc node).prebuiltDeltaSRPMS).Nodup
    ∧ (keysOf (processBuildNode mkVal st fm acc node).builtSRPMs).Nodup
    ∧ (keysOf (processBuildNode mkVal st fm acc node).unbuiltSRPMs).Nodup := by
  obtain ⟨h1, h2, h3, h4⟩ := h
  cases hc : st.isNodeCached node with
  | true =>
    cases hd : st.isNodeDelta node with
    | true =>
      simp only [processBuildNode, hc, hd, if_true]
      exact ⟨h1, nodup_keysOf_insertMap _ _ _ h2, h3, h4⟩
    | false =>
      simp only [processBuildNode, hc, hd, if_true, Bool.false_eq_true, if_false]
      exact ⟨nodup_keysOf_insertMap _ _ _ h1, h2, h3, h4⟩
  | false =>
    cases ha : st.isNodeAvailable node with
    | true =>
      simp only [processBuildNode, hc, ha, if_true, Bool.false_eq_true, if_false]
      exact ⟨h1, h2, nodup_keysOf_insertMap _ _ _ h3, h4⟩
    | false =>
      cases hl : (lookupMap fm node.srpmPath).isSome with
      | true =>
        simp only [processBuildNode, hc, ha, hl, if_true, Bool.false_eq_true, if_false]
        exact ⟨h1, h2, h3, h4⟩
      | false =>
        simp only [processBuildNode, hc, ha, hl, Bool.false_eq_true, if_false]
        exact ⟨h1, h2, h3, nodup_keysOf_insertMap _ _ _ h4⟩

theorem nodup_keys_classifyBuildNodes {α β : Type} (mkVal : PkgNode → α)
    (g : PkgGraph) (st : GraphBuildState) (fm : List (String × β)) :
    (keysOf (classifyBuildNodes mkVal g st fm).prebuiltSRPMs).Nodup
    ∧ (keysOf (classifyBuildNodes mkVal g st fm).prebuiltDeltaSRPMS).Nodup
    ∧ (keysOf (classifyBuildNodes mkVal g st fm).builtSRPMs).Nodup
    ∧ (keysOf (classifyBuildNodes mkVal g st fm).unbuiltSRPMs).Nodup := by
  rw [classifyBuildNodes]
  have hgo : ∀ (nodes : List PkgNode) (acc : Categories α),
      ((keysOf acc.prebuiltSRPMs).Nodup ∧ (keysOf acc.prebuiltDeltaSRPMS).Nodup
        ∧ (keysOf acc.builtSRPMs).Nodup ∧ (keysOf acc.unbuiltSRPMs).Nodup) →
      ((keysOf (nodes.foldl (processBuildNode mkVal st fm) acc).prebuiltSRPMs).Nodup
        ∧ (keysOf (nodes.foldl (processBuildNode mkVal st fm) acc).prebuiltDeltaSRPMS).Nodup
        ∧ (keysOf (nodes.foldl (processBuildNode mkVal st fm) acc).builtSRPMs).Nodup
        ∧ (keysOf (nodes.foldl (processBuildNode mkVal st fm) acc).unbuiltSRPMs).Nodup) := by
    intro nodes
    induction nodes with
    | nil => intro acc hacc; simpa using hacc
    | cons n t ih =>
      intro acc hacc
      rw [List.foldl_cons]
      exact ih _ (nodup_keys_processBuildNode mkVal st fm acc n hacc)
  exact hgo g.allBuildNodes Categories.empty (by simp [Categories.empty, keysOf])

/-- C10: the console line "Number of failed SRPMs" reports the raw length
of the failure-record list (line seven of the output), the "Failed
SRPMs:" section prints one line per failure record, and — unlike the
failure list — the other four categories are path-deduplicated sets. -/
theorem c10_failed_raw (g : PkgGraph) (st : GraphBuildState) (b : Bool) :
    (printBuildSummary g st b).get? 6
      = some (LogLevel.info,
          "Number of failed SRPMs:            " ++ toString st.buildFailures.length)
    ∧ (∃ pre post, printBuildSummary g st b
        = pre
          ++ (if st.buildFailures.length ≠ 0 then
                (LogLevel.info, "Failed SRPMs:")
                  :: st.buildFailures.map
                      (fun f => (LogLevel.info,
                        "--> " ++ f.node.srpmFileName ++ " , error: " ++ f.errMsg
                          ++ ", for details see: " ++ f.logFile))
              else [])
          ++ post)
    ∧ (keysOf (printCategories g st).builtSRPMs).Nodup
    ∧ (keysOf (printCategories g st).prebuiltSRPMs).Nodup
    ∧ (keysOf (printCategories g st).prebuiltDeltaSRPMS).Nodup
    ∧ (keysOf (printCategories g st).unbuiltSRPMs).Nodup := by
  refine ⟨rfl, ?_, (nodup_keys_classifyBuildNodes _ g st _).2.2.1,
    (nodup_keys_classifyBuildNodes _ g st _).1,
    (nodup_keys_classifyBuildNodes _ g st _).2.1,
    (nodup_keys_classifyBuildNodes _ g st _).2.2.2⟩
  refine ⟨[(LogLevel.info, "---------------------------"),
    (LogLevel.info, "--------- Summary ---------"),
    (LogLevel.info, "---------------------------"),
    (LogLevel.info, "Number of built SRPMs:             "
      ++ toString (printCategories g st).builtSRPMs.length),
    (LogLevel.info, "Number of prebuilt SRPMs:          "
      ++ toString (printCategories g st).prebuiltSRPMs.length),
    (LogLevel.info, "Number of prebuilt delta SRPMs:    "
      ++ toString (printCategories g st).prebuiltDeltaSRPMS.length),
    (LogLevel.info, "Number of failed SRPMs:            "
      ++ toString st.buildFailures.length),
    (LogLevel.info, "Number of blocked SRPMs:           "
      ++ toString (printCategories g st).unbuiltSRPMs.length),
    (LogLevel.info, "Number of unresolved dependencies: "
      ++ toString (unresolvedDependencies g).length)]
    ++ (if b && (st.conflictingRPMs.length > 0 || st.conflictingSRPMs.length > 0) then
          [(LogLevel.info, "Toolchain RPMs conflicts are ignored since ALLOW_TOOLCHAIN_REBUILDS=y")]
        else [])
    ++ (if st.conflictingRPMs.length > 0 || st.conflictingSRPMs.length > 0 then
          [(conflictsLogLevel st b, "Number of toolchain RPM conflicts: "
              ++ toString st.conflictingRPMs.length),
           (conflictsLogLevel st b, "Number of toolchain SRPM conflicts: "
              ++ toString st.conflictingSRPMs.length)]
        else [])
    ++ (if (printCategories g st).builtSRPMs.length ≠ 0 then
          (LogLevel.info, "Built SRPMs:")
            :: (printCategories g st).builtSRPMs.map
                (fun p => (LogLevel.info, "--> " ++ filepathBase p.1))
        else [])
    ++ (if (printCategories g st).prebuiltSRPMs.length ≠ 0 then
          (LogLevel.info, "Prebuilt SRPMs:")
            :: (printCategories g st).prebuiltSRPMs.map
                (fun p => (LogLevel.info, "--> " ++ filepathBase p.1))
        else [])
    ++ (if (printCategories g st).prebuiltDeltaSRPMS.length ≠ 0 then
          (LogLevel.info, "Skipped SRPMs (i.e., delta mode is on, packages are already available in a repo):")
            :: (printCategories g st).prebuiltDeltaSRPMS.map
                (fun p => (LogLevel.info, "--> " ++ filepathBase p.1))
        else []),
    (if (printCategories g st).unbuiltSRPMs.length ≠ 0 then
        (LogLevel.info, "Blocked SRPMs:")
          :: (printCategories g st).unbuiltSRPMs.map
              (fun p => (LogLevel.info, "--> " ++ filepathBase p.1))
      else [])
    ++ (if (unresolvedDependencies g).length ≠ 0 then
          (LogLevel.info, "Unresolved dependencies:")
            :: (unresolvedDependencies g).map
                (fun p => (LogLevel.info, "--> " ++ p.1))
        else [])
    ++ (if st.conflictingRPMs.length ≠ 0 then
          (conflictsLogLevel st b, "RPM conflicts with toolchain: ")
            :: st.conflictingRPMs.map (fun c => (conflictsLogLevel st b, "--> " ++ c))
        else [])
    ++ (if st.conflictingSRPMs.length ≠ 0 then
          (conflictsLogLevel st b, "SRPM conflicts with toolchain: ")
            :: st.conflictingSRPMs.map (fun c => (conflictsLogLevel st b, "--> " ++ c))
        else []), ?_⟩
  rw [printBuildSummary]
  simp only [List.append_assoc]

/-- C5 counterexample input: empty graph, one RPM conflict. -/
def gC5 : PkgGraph := ⟨[], [], fun _ => []⟩

/-- C5 counterexample state. -/
def stC5 : GraphBuildState := stAllFalse [] ["conflict.rpm"] []

/-- C5 counterexample: with a conflict present, the run with the flag set
emits one extra line, so text content and count are not identical. -/
theorem c5_claim_counterexample :
    (printBuildSummary gC5 stC5 true).map Prod.snd
        ≠ (printBuildSummary gC5 stC5 false).map Prod.snd
    ∧ (printBuildSummary gC5 stC5 true).length
        ≠ (printBuildSummary gC5 stC5 false).length := by
  decide

/-- C5 (corrected): apart from the single Info line "Toolchain RPMs
conflicts are ignored since ALLOW_TOOLCHAIN_REBUILDS=y", which is emitted
exactly when the flag is set and a conflict exists, the text sequence of
the console summary does not depend on the flag; the severity sequence is
pinned exactly: every line is Info except the two conflict-count lines
and the conflict-list lines, which all carry conflictsLogLevel — Info
when the flag is set or no conflicts exist, Error otherwise. -/
theorem c5_flag_effect (g : PkgGraph) (st : GraphBuildState) :
    (∃ pre post, ∀ b,
      (printBuildSummary g st b).map Prod.snd
        = pre
          ++ (if b && (st.conflictingRPMs.length > 0 || st.conflictingSRPMs.length > 0) then
                ["Toolchain RPMs conflicts are ignored since ALLOW_TOOLCHAIN_REBUILDS=y"]
              else [])
          ++ post)
    ∧ (∀ b, (printBuildSummary g st b).map Prod.fst
        = List.replicate 9 LogLevel.info
          ++ (if b && (st.conflictingRPMs.length > 0 || st.conflictingSRPMs.length > 0) then
                [LogLevel.info]
              else [])
          ++ (if st.conflictingRPMs.length > 0 || st.conflictingSRPMs.length > 0 then
                [conflictsLogLevel st b, conflictsLogLevel st b]
              else [])
          ++ (if (printCategories g st).builtSRPMs.length ≠ 0 then
                List.replicate ((printCategories g st).builtSRPMs.length + 1) LogLevel.info
              else [])
          ++ (if (printCategories g st).prebuiltSRPMs.length ≠ 0 then
                List.replicate ((printCategories g st).prebuiltSRPMs.length + 1) LogLevel.info
              else [])
          ++ (if (printCategories g st).prebuiltDeltaSRPMS.length ≠ 0 then
                List.replicate ((printCategories g st).prebuiltDeltaSRPMS.length + 1) LogLevel.info
              else [])
          ++ (if st.buildFailures.length ≠ 0 then
                List.replicate (st.buildFailures.length + 1) LogLevel.info
              else [])
          ++ (if (printCategories g st).unbuiltSRPMs.length ≠ 0 then
                List.replicate ((printCategories g st).unbuiltSRPMs.length + 1) LogLevel.info
              else [])
          ++ (if (unresolvedDependencies g).length ≠ 0 then
                List.replicate ((unresolvedDependencies g).length + 1) LogLevel.info
              else [])
          ++ (if st.conflictingRPMs.length ≠ 0 then
                List.replicate (st.conflictingRPMs.length + 1) (conflictsLogLevel st b)
              else [])
          ++ (if st.conflictingSRPMs.length ≠ 0 then
                List.replicate (st.conflictingSRPMs.length + 1) (conflictsLogLevel st b)
              else []))
    ∧ (∀ b, conflictsLogLevel st b
        = if b || (st.conflictingRPMs.length = 0 && st.conflictingSRPMs.length = 0)
          then LogLevel.info else LogLevel.error) := by
  refine ⟨?_, ?_, fun b => rfl⟩
  · refine ⟨["---------------------------",
      "--------- Summary ---------",
      "---------------------------",
      "Number of built SRPMs:             " ++ toString (printCategories g st).builtSRPMs.length,
      "Number of prebuilt SRPMs:          " ++ toString (printCategories g st).prebuiltSRPMs.length,
      "Number of prebuilt delta SRPMs:    " ++ toString (printCategories g st).prebuiltDeltaSRPMS.length,
      "Number of failed SRPMs:            " ++ toString st.buildFailures.length,
      "Number of blocked SRPMs:           " ++ toString (printCategories g st).unbuiltSRPMs.length,
      "Number of unresolved dependencies: " ++ toString (unresolvedDependencies g).length],
      (if st.conflictingRPMs.length > 0 || st.conflictingSRPMs.length > 0 then
          ["Number of toolchain RPM conflicts: " ++ toString st.conflictingRPMs.length,
           "Number of toolchain SRPM conflicts: " ++ toString st.conflictingSRPMs.length]
        else [])
      ++ (if (printCategories g st).builtSRPMs.length ≠ 0 then
            "Built SRPMs:"
              :: (printCategories g st).builtSRPMs.map (fun p => "--> " ++ filepathBase p.1)
          else [])
      ++ (if (printCategories g st).prebuiltSRPMs.length ≠ 0 then
            "Prebuilt SRPMs:"
              :: (printCategories g st).prebuiltSRPMs.map (fun p => "--> " ++ filepathBase p.1)
          else [])
      ++ (if (printCategories g st).prebuiltDeltaSRPMS.length ≠ 0 then
            "Skipped SRPMs (i.e., delta mode is on, packages are already available in a repo):"
              :: (printCategories g st).prebuiltDeltaSRPMS.map (fun p => "--> " ++ filepathBase p.1)
          else [])
      ++ (if st.buildFailures.length ≠ 0 then
            "Failed SRPMs:"
              :: st.buildFailures.map
                  (fun f => "--> " ++ f.node.srpmFileName ++ " , error: " ++ f.errMsg
                    ++ ", for details see: " ++ f.logFile)
          else [])
      ++ (if (printCategories g st).unbuiltSRPMs.length ≠ 0 then
            "Blocked SRPMs:"
              :: (printCategories g st).unbuiltSRPMs.map (fun p => "--> " ++ filepathBase p.1)
          else [])
      ++ (if (unresolvedDependencies g).length ≠ 0 then
            "Unresolved dependencies:"
              :: (unresolvedDependencies g).map (fun p => "--> " ++ p.1)
          else [])
      ++ (if st.conflictingRPMs.length ≠ 0 then
            "RPM conflicts with toolchain: "
              :: st.conflictingRPMs.map (fun c => "--> " ++ c)
          else [])
      ++ (if st.conflictingSRPMs.length ≠ 0 then
            "SRPM conflicts with toolchain: "
              :: st.conflictingSRPMs.map (fun c => "--> " ++ c)
          else []), ?_⟩
    intro b
    rw [printBuildSummary]
    simp only [List.map_append, List.append_assoc, apply_ite (List.map (Prod.snd (α := LogLevel) (β := String))),
      List.map_cons, List.map_map, List.map_nil]
    rfl
  · intro b
    have h9 : List.replicate 9 LogLevel.info
        = [LogLevel.info, LogLevel.info, LogLevel.info, LogLevel.info, LogLevel.info,
           LogLevel.info, LogLevel.info, LogLevel.info, LogLevel.info] := rfl
    rw [printBuildSummary, h9]
    simp only [List.map_append]
    simp only [apply_ite (List.map (Prod.fst (α := LogLevel) (β := String)))]
    simp [List.map_cons, List.map_map, List.map_nil, Function.comp_def,
      List.map_const', List.replicate_succ]

theorem blob_rows_ne_nil (g : PkgGraph) (st : GraphBuildState) :
    ∀ row ∈ recordBuildSummaryBlob g st, row ≠ [] := by
  intro row hrow
  rw [recordBuildSummaryBlob_eq] at hrow
  rcases List.mem_cons.mp hrow with h | h
  · rw [h]; simp
  · simp only [List.mem_append, List.mem_map] at h
    rcases h with ((((⟨p, _, hp⟩ | ⟨p, _, hp⟩) | ⟨p, _, hp⟩) | ⟨p, _, hp⟩) | ⟨p, _, hp⟩)
      <;> rw [← hp] <;> simp

/-- C2 counterexample input: two distinct build nodes share srpm path "p",
both cached. -/
def gC2 : PkgGraph := ⟨[nodeP, nodeP2], [], fun _ => []⟩

/-- C2 counterexample state: everything cached. -/
def stC2 : GraphBuildState :=
  ⟨fun _ => true, fun _ => false, fun _ => false, [], [], []⟩

/-- C2 counterexample: the CSV has one data row but there are two
build-type nodes, so it does not contain exactly one row per node. -/
theorem c2_claim_counterexample :
    ((recordBuildSummaryBlob gC2 stC2).drop 1).length ≠ gC2.allBuildNodes.length := by
  decide

/-- C2 (corrected): under the same scheduler invariants as C1, the CSV is
the header row followed by the category blocks in order Built, PreBuilt,
PreBuiltDelta, Failed, Unbuilt, with one row per build node, the literal
state string in the State column, the blocker string as a third field on
Failed and Unbuilt rows only (the field is absent from the other rows),
and parsing the written text with a reader that tolerates varying record
lengths recovers the table exactly. -/
theorem c2_csv_table (g : PkgGraph) (st : GraphBuildState)
    (hnd : (g.allBuildNodes.map PkgNode.srpmPath).Nodup)
    (hfail : ∀ f ∈ st.buildFailures, ∃ n ∈ g.allBuildNodes,
      n.srpmPath = f.node.srpmPath ∧ st.isNodeCached n = false
        ∧ st.isNodeAvailable n = false) :
    (recordBuildSummaryBlob g st
      = ["Package", "State", "Blocker"]
        :: ((g.allBuildNodes.filter (builtCond st)).map
              (fun n => [filepathBase n.srpmPath, "Built"])
          ++ (g.allBuildNodes.filter (prebuiltCond st)).map
              (fun n => [filepathBase n.srpmPath, "PreBuilt"])
          ++ (g.allBuildNodes.filter (prebuiltDeltaCond st)).map
              (fun n => [filepathBase n.srpmPath, "PreBuiltDelta"])
          ++ (buildFailedMap st).map
              (fun p => [filepathBase p.2.srpmPath, "Failed",
                blockingNodesStr g (buildFailedMap st)
                  ((g.allBuildNodes.filter (unbuiltCond st (buildFailedMap st))).map
                    (fun n => (n.srpmPath, n))) p.2])
          ++ (g.allBuildNodes.filter (unbuiltCond st (buildFailedMap st))).map
              (fun n => [filepathBase n.srpmPath, "Unbuilt",
                blockingNodesStr g (buildFailedMap st)
                  ((g.allBuildNodes.filter (unbuiltCond st (buildFailedMap st))).map
                    (fun n => (n.srpmPath, n))) n])))
    ∧ ((recordBuildSummaryBlob g st).drop 1).length = g.allBuildNodes.length
    ∧ parseCsv (writeCsv (recordBuildSummaryBlob g st)) = recordBuildSummaryBlob g st := by
  have hcats := classifyBuildNodes_eq (fun n => n) g st (buildFailedMap st) hnd
  have hbuilt : (categoryMaps g st).builtSRPMs
      = (g.allBuildNodes.filter (builtCond st)).map (fun n => (n.srpmPath, n)) := by
    rw [categoryMaps, hcats]
  have hpre : (categoryMaps g st).prebuiltSRPMs
      = (g.allBuildNodes.filter (prebuiltCond st)).map (fun n => (n.srpmPath, n)) := by
    rw [categoryMaps, hcats]
  have hdelta : (categoryMaps g st).prebuiltDeltaSRPMS
      = (g.allBuildNodes.filter (prebuiltDeltaCond st)).map (fun n => (n.srpmPath, n)) := by
    rw [categoryMaps, hcats]
  have hunbuilt : (categoryMaps g st).unbuiltSRPMs
      = (g.allBuildNodes.filter (unbuiltCond st (buildFailedMap st))).map
          (fun n => (n.srpmPath, n)) := by
    rw [categoryMaps, hcats]
  refine ⟨?_, ?_, writeCsv_parseCsv _ (blob_rows_ne_nil g st)⟩
  · rw [recordBuildSummaryBlob_eq, hbuilt, hpre, hdelta, hunbuilt]
    simp only [List.map_map]
    rfl
  · rw [recordBuildSummaryBlob_eq]
    simp only [List.drop_succ_cons, List.drop_zero, List.length_append, List.length_map]
    rw [hbuilt, hpre, hdelta, hunbuilt]
    simp only [List.length_map]
    have e1 : (g.allBuildNodes.filter (builtCond st)).length
        = g.allBuildNodes.countP (builtCond st) :=
      (List.countP_eq_length_filter _ _).symm
    have e2 : (g.allBuildNodes.filter (prebuiltCond st)).length
        = g.allBuildNodes.countP (prebuiltCond st) :=
      (List.countP_eq_length_filter _ _).symm
    have e3 : (g.allBuildNodes.filter (prebuiltDeltaCond st)).length
        = g.allBuildNodes.countP (prebuiltDeltaCond st) :=
      (List.countP_eq_length_filter _ _).symm
    have e4 : (g.allBuildNodes.filter (unbuiltCond st (buildFailedMap st))).length
        = g.allBuildNodes.countP (unbuiltCond st (buildFailedMap st)) :=
      (List.countP_eq_length_filter _ _).symm
    have e5 := countP_failedCond_eq g st hnd hfail
    have e6 := countP_five_conds st (buildFailedMap st) g.allBuildNodes
    omega

theorem c2_csv_table_witness :
    parseCsv (writeCsv (recordBuildSummaryBlob gW1 stW1))
      = recordBuildSummaryBlob gW1 stW1 :=
  (c2_csv_table gW1 stW1 (by decide) (by decide)).2.2

end Claims

end PrintResults
